import Mathlib

/-!
Verification of the hardware telemetry engine of PC-Tool-Manager
(src/pc_tool_manager_complete.py, class UniversalHardwareMonitor).

Shallow embedding conventions:
* Python floats are modelled as exact rationals (ℚ); every ℚ is finite, which
  discharges the "finite" part of the range claims.
* Python dicts are modelled as insertion-ordered association lists
  (List (String × _)); dict.update is a left fold of single-key inserts
  (overwrite in place if the key exists, append otherwise).
* random.uniform draws are free ℚ parameters (one per draw site), bounded by
  hypotheses where a claim needs the documented bounds.
* OS queries (psutil, WMI, subprocess) are inputs collected in environment
  structures; a query that Python would observe as an exception is modelled
  by the explicit value the surrounding except-handler produces.
* Sensor records carry the fields the claims mention (name, type, current,
  method); the constant unit field and the optional max / size_gb fields of
  the source records are irrelevant to every claim and are omitted.
-/

/-- Membership test of one character list as a prefix of another
(Python s.startswith, used to build the substring test below). -/
def charsPre : List Char → List Char → Bool
  | [], _ => true
  | _ :: _, [] => false
  | a :: as, b :: bs => a == b && charsPre as bs

/-- Substring occurrence on character lists. -/
def charsContains (p : List Char) : List Char → Bool
  | [] => charsPre p []
  | c :: t => charsPre p (c :: t) || charsContains p t

/-- Python membership test pat in s on strings. -/
def strContains (s pat : String) : Bool :=
  charsContains pat.toList s.toList

/-- Python int() applied to a float: truncation toward zero. -/
def pyInt (q : ℚ) : ℤ :=
  if 0 ≤ q then ⌊q⌋ else ⌈q⌉

/-- Python round() applied to a float: round half to even. -/
def pyRound (q : ℚ) : ℤ :=
  let n := ⌊q⌋
  let f := q - (n : ℚ)
  if f < 1 / 2 then n
  else if 1 / 2 < f then n + 1
  else if n % 2 = 0 then n else n + 1

/-- Python float modulo: x % y = x - y * floor (x / y). -/
def pyMod (x y : ℚ) : ℚ :=
  x - y * (⌊x / y⌋ : ℤ)

/-- One temperature sensor record (the dict values of self.sensors). -/
structure Sensor where
  name : String
  stype : String
  current : ℚ
  method : String
deriving DecidableEq

/-- self.sensors: insertion-ordered map from sensor key to record. -/
abbrev SMap := List (String × Sensor)

/-- One fan record (the dict values of self.fan_status). -/
structure Fan where
  current_rpm : ℤ
  current_speed : ℤ
  max_rpm : ℤ
  status : String
deriving DecidableEq

/-- self.fan_status: map from fan id to fan record. -/
abbrev FMap := List (String × Fan)

/-- Python d[k] = v on an association list: overwrite in place if the key is
present, append otherwise. -/
def dictInsert (m : SMap) (k : String) (v : Sensor) : SMap :=
  if m.any (fun kv => kv.1 = k) then
    m.map (fun kv => if kv.1 = k then (k, v) else kv)
  else m ++ [(k, v)]

/-- Python d.update(d2): last-writer-wins merge, d2 entries in order. -/
def dictUpdate (m m2 : SMap) : SMap :=
  m2.foldl (fun acc kv => dictInsert acc kv.1 kv.2) m

/-- First value stored under a fan id. -/
def lookupFan : FMap → String → Option Fan
  | [], _ => none
  | kv :: t, id => if kv.1 = id then some kv.2 else lookupFan t id

/-- The four cache fields of UniversalHardwareMonitor.__init__
(last_cpu_check, last_memory_check, cached_cpu_percent,
cached_memory_percent). -/
structure CacheState where
  lastCpuCheck : ℚ
  lastMemoryCheck : ℚ
  cachedCpuPercent : ℚ
  cachedMemoryPercent : ℚ
deriving DecidableEq

/-- self.cache_duration = 2.0 seconds. -/
def cacheDuration : ℚ := 2

/-- Result of one cached-metric read: the new cache state, the returned value,
and whether the underlying OS query was invoked. -/
structure CacheReadResult where
  state : CacheState
  value : ℚ
  queried : Bool
deriving DecidableEq

/-- _get_cached_cpu_percent (src 96-109).  now is time.time(); osVal is what
psutil.cpu_percent would return; ok=false models the bare except: the query
raised, so neither the value nor the timestamp is stored. -/
def getCachedCpuPercent (now osVal : ℚ) (ok : Bool) (st : CacheState) :
    CacheReadResult :=
  if cacheDuration < now - st.lastCpuCheck then
    if ok then
      ⟨{ st with cachedCpuPercent := osVal, lastCpuCheck := now }, osVal, true⟩
    else ⟨st, st.cachedCpuPercent, true⟩
  else ⟨st, st.cachedCpuPercent, false⟩

/-- _get_cached_memory_percent (src 111-124), same shape as the CPU accessor. -/
def getCachedMemoryPercent (now osVal : ℚ) (ok : Bool) (st : CacheState) :
    CacheReadResult :=
  if cacheDuration < now - st.lastMemoryCheck then
    if ok then
      ⟨{ st with cachedMemoryPercent := osVal, lastMemoryCheck := now }, osVal, true⟩
    else ⟨st, st.cachedMemoryPercent, true⟩
  else ⟨st, st.cachedMemoryPercent, false⟩

/-- The OS facts visible at one instant during a refresh tick. -/
structure OsEnv where
  cpuPercent : ℚ
  memoryPercent : ℚ
  cpuOk : Bool
  memOk : Bool
  cpuFreq : Option ℚ
  memUsed : ℚ
  memTotal : ℚ
  diskIo : Option ℚ
  diskOk : Bool

/-- Dispatch of _update_simulated_sensor (src 1074-1294) after the two cached
metric reads have produced cpu and mem.  j is the branch's random.uniform
draw; time_factor is (time.time() % 10) / 10.  Branches in which Python
raises (int() on a non-numeric key suffix, ZeroDivisionError when
memory.total is 0) return info.current, matching the function-level except
that returns sensor_info.get('current', 40.0).  diskOk = false models
psutil.disk_io_counters raising inside the storage branch: its inner except
(src 1272-1275) then returns max(25, min(55, current + jitter)) for every
storage kind; diskIo = none models the falsy (None) return. -/
def updateSimTemp (key : String) (info : Sensor) (now : ℚ) (os : OsEnv)
    (j : ℚ) (cpu mem : ℚ) : ℚ :=
  let time_factor := pyMod now 10 / 10
  if strContains info.method "Simulated" = false then
    max 20 (min 100 (info.current + j))
  else if key = "cpu_package" then
    let freq_factor := match os.cpuFreq with
      | some f => f / 3000 * 10
      | none => 0
    max 30 (min 85 (35 + freq_factor + cpu / 100 * 20 + (j + time_factor * 0.5)))
  else if strContains key "cpu_core_" = true then
    match ((key.splitOn "_").getLastD "").toNat? with
    | none => info.current
    | some n =>
      let freq_factor := match os.cpuFreq with
        | some f => f / 3000 * 8
        | none => 0
      max 28 (min 90 (35 + freq_factor + cpu / 100 * 18 + (j + (n : ℚ) * 0.5)))
  else if strContains key "cpu_thread_" = true then
    match ((key.splitOn "_").getLastD "").toNat? with
    | none => info.current
    | some n =>
      max 27 (min 88 (35 + cpu / 100 * 16 + (j + (n : ℚ) * 0.3)))
  else if strContains key "ram_module_" = true then
    match ((key.splitOn "_").getLastD "").toNat? with
    | none => info.current
    | some n =>
      if os.memTotal = 0 then info.current
      else
        max 20 (min 60 (25 + os.memUsed / os.memTotal * 15 + (j + (n : ℚ) * 0.8)))
  else if key = "ram_controller" then
    if os.memTotal = 0 then info.current
    else max 25 (min 55 (30 + os.memUsed / os.memTotal * 10 + j))
  else if strContains key "ram_dimm_" = true then
    match ((key.splitOn "_").getLastD "").toNat? with
    | none => info.current
    | some n =>
      max 22 (min 50 (28 + (j + (n : ℚ) * 0.5)))
  else if key = "gpu_core" then
    let gpu_activity := (mem * 0.3 + cpu * 0.4) / 100
    max 25 (min 80 (30 + gpu_activity * 25 + j))
  else if key = "gpu_memory" then
    let gpu_activity := (mem * 0.3 + cpu * 0.4) / 100
    max 22 (min 75 (28 + gpu_activity * 20 + j))
  else if key = "gpu_vrm" then
    let gpu_activity := (mem * 0.3 + cpu * 0.4) / 100
    max 25 (min 80 (32 + gpu_activity * 25 + j))
  else if key = "gpu_hotspot" then
    let gpu_activity := (mem * 0.3 + cpu * 0.4) / 100
    max 30 (min 85 (35 + gpu_activity * 30 + j))
  else if key = "gpu_fan" then
    let gpu_activity := (mem * 0.3 + cpu * 0.4) / 100
    max 20 (min 60 (25 + gpu_activity * 10 + j))
  else if key = "motherboard" then
    max 25 (min 40 (info.current + j))
  else if key = "chipset" then
    max 30 (min 45 (info.current + j))
  else if key = "southbridge" then
    max 28 (min 42 (info.current + j))
  else if strContains key "pcie_slot_" = true then
    match ((key.splitOn "_").getLastD "").toNat? with
    | none => info.current
    | some n =>
      max 25 (min 40 (30 + (j + (n : ℚ) * 0.3)))
  else if key = "vrm" then
    let freq_factor := match os.cpuFreq with
      | some f => f / 3000 * 12
      | none => 0
    max 35 (min 95 (40 + freq_factor + cpu / 100 * 15 + j))
  else if strContains key "storage_" = true then
    if os.diskOk = false then
      max 25 (min 55 (info.current + j))
    else
    let activity_temp := match os.diskIo with
      | some b => min (b / 1073741824 / 100) 15
      | none => 0
    if strContains key "ssd" = true then
      max 20 (min 45 (28 + activity_temp + j))
    else if strContains key "hdd" = true then
      max 30 (min 55 (35 + activity_temp + j))
    else if strContains key "nvme" = true then
      max 25 (min 50 (32 + activity_temp + j))
    else
      max 25 (min 55 (info.current + j))
  else if key = "psu" then
    let system_load := (cpu + mem) / 2
    max 30 (min 65 (35 + system_load / 100 * 15 + j))
  else
    max 20 (min 80 (info.current + j))

/-- The clamp interval the dispatch above applies to a sensor of the given
key and method; this is the per-kind declared range of the spec. -/
def updateClampRange (key method : String) : ℚ × ℚ :=
  if strContains method "Simulated" = false then (20, 100)
  else if key = "cpu_package" then (30, 85)
  else if strContains key "cpu_core_" = true then (28, 90)
  else if strContains key "cpu_thread_" = true then (27, 88)
  else if strContains key "ram_module_" = true then (20, 60)
  else if key = "ram_controller" then (25, 55)
  else if strContains key "ram_dimm_" = true then (22, 50)
  else if key = "gpu_core" then (25, 80)
  else if key = "gpu_memory" then (22, 75)
  else if key = "gpu_vrm" then (25, 80)
  else if key = "gpu_hotspot" then (30, 85)
  else if key = "gpu_fan" then (20, 60)
  else if key = "motherboard" then (25, 40)
  else if key = "chipset" then (30, 45)
  else if key = "southbridge" then (28, 42)
  else if strContains key "pcie_slot_" = true then (25, 40)
  else if key = "vrm" then (35, 95)
  else if strContains key "storage_" = true then
    if strContains key "ssd" = true then (20, 45)
    else if strContains key "hdd" = true then (30, 55)
    else if strContains key "nvme" = true then (25, 50)
    else (25, 55)
  else if key = "psu" then (30, 65)
  else (20, 80)

/-- A key is well formed when the branch the dispatch selects for it does not
need a numeric suffix, or its last underscore-separated segment parses as a
natural number (the int() call of the source succeeds).  Keys produced by
_create_simulated_sensors are all well formed. -/
def wellFormedKey (key : String) : Bool :=
  if key = "cpu_package" then true
  else if strContains key "cpu_core_" = true then
    (((key.splitOn "_").getLastD "").toNat?).isSome
  else if strContains key "cpu_thread_" = true then
    (((key.splitOn "_").getLastD "").toNat?).isSome
  else if strContains key "ram_module_" = true then
    (((key.splitOn "_").getLastD "").toNat?).isSome
  else if key = "ram_controller" then true
  else if strContains key "ram_dimm_" = true then
    (((key.splitOn "_").getLastD "").toNat?).isSome
  else if key = "gpu_core" then true
  else if key = "gpu_memory" then true
  else if key = "gpu_vrm" then true
  else if key = "gpu_hotspot" then true
  else if key = "gpu_fan" then true
  else if key = "motherboard" then true
  else if key = "chipset" then true
  else if key = "southbridge" then true
  else if strContains key "pcie_slot_" = true then
    (((key.splitOn "_").getLastD "").toNat?).isSome
  else true

/-- Engine state: the fields of UniversalHardwareMonitor the claims touch. -/
structure Engine where
  sensors : SMap
  fan_status : FMap
  cache : CacheState
deriving DecidableEq

/-- _update_simulated_sensor (src 1074-1294): the two cached metric reads,
in source order (cpu first at 1080, memory at 1081), then the dispatch. -/
def updateSimulatedSensor (key : String) (info : Sensor) (now : ℚ)
    (os : OsEnv) (j : ℚ) (st : CacheState) : CacheState × ℚ :=
  let r1 := getCachedCpuPercent now os.cpuPercent os.cpuOk st
  let r2 := getCachedMemoryPercent now os.memoryPercent os.memOk r1.state
  (r2.state, updateSimTemp key info now os j r1.value r2.value)

/-- Loop body of get_updated_sensors (src 1043-1070): the update never
returns None (every dispatch branch and the except handler produce a value),
so the copied record with the new current is appended unconditionally. -/
def tickStep (now : ℚ) (os : OsEnv) (jit : String → ℚ)
    (acc : CacheState × SMap) (kv : String × Sensor) : CacheState × SMap :=
  let r := updateSimulatedSensor kv.1 kv.2 now os (jit kv.1) acc.1
  (r.1, acc.2 ++ [(kv.1, { kv.2 with current := r.2 })])

/-- get_updated_sensors (src 1039-1072): builds a fresh map from copies of
the stored records; self.sensors is only read, the cache fields evolve. -/
def getUpdatedSensors (e : Engine) (now : ℚ) (os : OsEnv)
    (jit : String → ℚ) : Engine × SMap :=
  let res := e.sensors.foldl (tickStep now os jit) (e.cache, [])
  ({ e with cache := res.1 }, res.2)

/-- The cpu percent value any sensor update sees when the tick starts in
cache state st. -/
def cpuVal (now : ℚ) (os : OsEnv) (st : CacheState) : ℚ :=
  (getCachedCpuPercent now os.cpuPercent os.cpuOk st).value

/-- The memory percent value any sensor update sees when the tick starts in
cache state st (read after the cpu read, as in the source). -/
def memVal (now : ℚ) (os : OsEnv) (st : CacheState) : ℚ :=
  (getCachedMemoryPercent now os.memoryPercent os.memOk
    (getCachedCpuPercent now os.cpuPercent os.cpuOk st).state).value

/-- Cache state after one sensor update (cpu read then memory read). -/
def cacheStep (now : ℚ) (os : OsEnv) (st : CacheState) : CacheState :=
  (getCachedMemoryPercent now os.memoryPercent os.memOk
    (getCachedCpuPercent now os.cpuPercent os.cpuOk st).state).state

/-- Environment of one _create_simulated_sensors run (src 649-1020): the
direct psutil / platform / subprocess reads and one ℚ per random.uniform
draw site (indexed draws for the per-core / per-module loops).  The draw
feeding the unused core_load local (src 691) is omitted: it never reaches
any stored value.  psutilOk = false models the leading psutil import and
reads (src 654-661) raising before anything is inserted: the function-level
except (src 1017-1018) then lets the still-empty dict be returned. -/
structure GenEnv where
  psutilOk : Bool
  cpuPercent : ℚ
  memoryPercent : ℚ
  cpuFreq : Option ℚ
  cpuCount : ℕ
  cpuCountLogical : ℕ
  procName : String
  memTotal : ℚ
  memUsed : ℚ
  gpuName : String
  partitions : List String
  diskIo : Option ℚ
  storageExc : Bool
  jCpuPkg : ℚ
  jCore : ℕ → ℚ
  jThread : ℕ → ℚ
  jRamModule : ℕ → ℚ
  jRamController : ℚ
  jDimm : ℕ → ℚ
  jGpu : ℚ
  jGpuMemory : ℚ
  jGpuVrm : ℚ
  jGpuHotspot : ℚ
  jGpuFan : ℚ
  jMotherboard : ℚ
  jChipset : ℚ
  jSouthbridge : ℚ
  jPcie : ℕ → ℚ
  jVrm : ℚ
  jSsd : ℚ
  jSsdController : ℚ
  jHdd : ℚ
  jHddMotor : ℚ
  jNvme : ℚ
  jStorageDefault : ℚ
  jPsu : ℚ

/-- Storage-type detection loop over disk partitions (src 905-917): a truthy
device containing 'ssd' marks an SSD, else one containing 'hdd' or 'disk'
marks an HDD; if neither is seen, machines with at least 16 GB RAM are
assumed SSD-only, smaller ones SSD plus HDD (both branches set has_ssd). -/
def detectStorageKinds (parts : List String) (ramTotalGb : ℚ) : Bool × Bool :=
  let seen := parts.foldl
    (fun (acc : Bool × Bool) d =>
      if d ≠ "" ∧ strContains d.toLower "ssd" = true then (true, acc.2)
      else if d ≠ "" ∧ (strContains d.toLower "hdd" = true
          ∨ strContains d.toLower "disk" = true) then
        (acc.1, true)
      else acc)
    (false, false)
  if seen.1 = false ∧ seen.2 = false then
    if 16 ≤ ramTotalGb then (true, false) else (true, true)
  else seen

/-- _create_simulated_sensors (src 649-1020).  When psutilOk is false the
leading psutil reads (src 654-661) raise before any insert and the
function-level except returns the still-empty dict.  When memory.total is 0
the first RAM-module iteration raises ZeroDivisionError; the function-level
except logs it and the partially built dict (the CPU sensors) is returned.
The storage block has its own try: storageExc = true models a psutil failure
there, producing the storage_primary fallback sensor. -/
def createSimulatedSensors (g : GenEnv) : SMap :=
  if g.psutilOk = false then []
  else
  let freq_factor := match g.cpuFreq with
    | some f => f / 3000 * 10
    | none => 0
  let cpu_temp0 := 35 + freq_factor + g.cpuPercent / 100 * 20 + g.jCpuPkg
  let cpu_temp := max 30 (min 85 cpu_temp0)
  let s1 := dictInsert [] "cpu_package"
    ⟨g.procName ++ " Package", "CPU", cpu_temp, "Simulated (Load+Freq-based)"⟩
  let s2 := (List.range g.cpuCount).foldl
    (fun acc i =>
      let core_temp0 := cpu_temp + g.jCore i +
        (match g.cpuFreq with
          | some f => f / 3000 * 5
          | none => 0)
      let core_temp := max 28 (min 90 core_temp0)
      dictInsert acc ("cpu_core_" ++ toString i)
        ⟨"CPU Core " ++ toString (i + 1), "CPU", core_temp,
          "Simulated (Core-specific)"⟩)
    s1
  let s3 :=
    if g.cpuCount < g.cpuCountLogical then
      ((List.range g.cpuCountLogical).drop g.cpuCount).foldl
        (fun acc i =>
          let thread_temp := max 27 (min 88 (cpu_temp + g.jThread i))
          dictInsert acc ("cpu_thread_" ++ toString i)
            ⟨"CPU Thread " ++ toString (i + 1), "CPU", thread_temp,
              "Simulated (Thread-specific)"⟩)
        s2
    else s2
  if g.memTotal = 0 then s3
  else
    let ram_total_gb := g.memTotal / 1073741824
    let ram_used_gb := g.memUsed / 1073741824
    let ram_banks := Int.toNat (max 2 (min 8 (pyInt (ram_total_gb / 4))))
    let s4 := (List.range ram_banks).foldl
      (fun acc i =>
        let ram_temp := max 20 (min 60
          (25 + ram_used_gb / ram_total_gb * 15 + g.jRamModule i))
        dictInsert acc ("ram_module_" ++ toString i)
          ⟨"RAM Module " ++ toString (i + 1), "Memory", ram_temp,
            "Simulated (Usage-based)"⟩)
      s3
    let s5 := dictInsert s4 "ram_controller"
      ⟨"RAM Controller", "Memory",
        max 25 (min 55 (30 + ram_used_gb / ram_total_gb * 10 + g.jRamController)),
        "Simulated (Controller)"⟩
    let s6 := (List.range 4).foldl
      (fun acc i =>
        dictInsert acc ("ram_dimm_" ++ toString i)
          ⟨"DIMM Slot " ++ toString (i + 1), "Memory",
            max 22 (min 50 (28 + g.jDimm i)), "Simulated (DIMM)"⟩)
      s5
    let gpu_activity := (g.memoryPercent * 0.3 + g.cpuPercent * 0.4) / 100
    let gpu_temp := max 25 (min 80 (30 + gpu_activity * 25 + g.jGpu))
    let s7 := dictInsert s6 "gpu_core"
      ⟨g.gpuName ++ " Core", "GPU", gpu_temp, "Simulated (Activity-based)"⟩
    let s8 := dictInsert s7 "gpu_memory"
      ⟨g.gpuName ++ " Memory", "GPU",
        max 22 (min 75 (gpu_temp + g.jGpuMemory)), "Simulated (GPU-based)"⟩
    let s9 := dictInsert s8 "gpu_vrm"
      ⟨g.gpuName ++ " VRM", "GPU",
        max 25 (min 80 (gpu_temp + g.jGpuVrm)), "Simulated (GPU VRM)"⟩
    let s10 := dictInsert s9 "gpu_hotspot"
      ⟨g.gpuName ++ " Hot Spot", "GPU",
        max 30 (min 85 (gpu_temp + g.jGpuHotspot)), "Simulated (GPU Hot Spot)"⟩
    let s11 := dictInsert s10 "gpu_fan"
      ⟨g.gpuName ++ " Fan", "GPU",
        max 20 (min 60 (gpu_temp - g.jGpuFan)), "Simulated (GPU Fan)"⟩
    let s12 := dictInsert s11 "motherboard"
      ⟨"Motherboard", "System", 28 + g.jMotherboard, "Simulated (Ambient)"⟩
    let s13 := dictInsert s12 "chipset"
      ⟨"Chipset", "System", 35 + g.jChipset, "Simulated (Chipset)"⟩
    let s14 := dictInsert s13 "southbridge"
      ⟨"South Bridge", "System", 32 + g.jSouthbridge, "Simulated (South Bridge)"⟩
    let s15 := (List.range 3).foldl
      (fun acc i =>
        dictInsert acc ("pcie_slot_" ++ toString i)
          ⟨"PCIe Slot " ++ toString (i + 1), "System", 30 + g.jPcie i,
            "Simulated (PCIe)"⟩)
      s14
    let s16 := dictInsert s15 "vrm"
      ⟨"VRM (CPU Power)", "System",
        max 35 (min 95 (cpu_temp + g.jVrm)), "Simulated (CPU-based)"⟩
    let s17 :=
      if g.storageExc then
        dictInsert s16 "storage_primary"
          ⟨"Primary Storage", "Storage", 32 + g.jStorageDefault,
            "Simulated (Default)"⟩
      else
        let kinds := detectStorageKinds g.partitions ram_total_gb
        let activity_factor := match g.diskIo with
          | some b => min (b / 1073741824 / 100) 15
          | none => 0
        let sA :=
          if kinds.1 then
            let ssd_temp := max 20 (min 45 (28 + activity_factor + g.jSsd))
            dictInsert
              (dictInsert s16 "storage_ssd"
                ⟨"Primary SSD", "Storage", ssd_temp, "Simulated (SSD IO-based)"⟩)
              "storage_ssd_controller"
              ⟨"SSD Controller", "Storage",
                max 25 (min 50 (ssd_temp + g.jSsdController)),
                "Simulated (SSD Controller)"⟩
          else s16
        let sB :=
          if kinds.2 then
            let hdd_temp := max 30 (min 55 (35 + activity_factor + g.jHdd))
            dictInsert
              (dictInsert sA "storage_hdd"
                ⟨"Secondary HDD", "Storage", hdd_temp, "Simulated (HDD IO-based)"⟩)
              "storage_hdd_motor"
              ⟨"HDD Motor", "Storage",
                max 35 (min 60 (hdd_temp + g.jHddMotor)),
                "Simulated (HDD Motor)"⟩
          else sA
        if 32 ≤ ram_total_gb then
          dictInsert sB "storage_nvme"
            ⟨"NVMe SSD", "Storage",
              max 25 (min 50 (32 + activity_factor + g.jNvme)),
              "Simulated (NVMe IO-based)"⟩
        else sB
    let system_load := (g.cpuPercent + g.memoryPercent) / 2
    dictInsert s17 "psu"
      ⟨"Power Supply", "System",
        max 30 (min 65 (35 + system_load / 100 * 15 + g.jPsu)),
        "Simulated (System Load)"⟩

/-- detect_all_sensors (src 67-94).  results are the five detection methods'
returned dicts in registration order; a method that raises is caught and
contributes nothing, which is also the effect of a falsy (empty) result, so
an exception is modelled by an empty entry.  Below the 5-sensor threshold
the simulated set is merged in on top. -/
def detectAllSensors (results : List SMap) (g : GenEnv) : SMap :=
  let all := results.foldl
    (fun acc r => if r = [] then acc else dictUpdate acc r) []
  if all.length < 5 then dictUpdate all (createSimulatedSensors g) else all

/-- detect_all_sensors stores the merged map in self.sensors and returns it. -/
def detectAllSensorsEngine (e : Engine) (results : List SMap) (g : GenEnv) :
    Engine × SMap :=
  let m := detectAllSensors results g
  ({ e with sensors := m }, m)

/-- Status thresholds of _update_fan_status_real_time (src 1384-1389). -/
def fanStatusOfSpeed (speed : ℤ) : String :=
  if 80 < speed then "High" else if 60 < speed then "Medium" else "Normal"

/-- _initialize_fan_status (src 1296-1329). -/
def initialFanStatus : FMap :=
  [("cpu_fan", ⟨1200, 60, 3000, "Normal"⟩),
   ("gpu_fan", ⟨1000, 50, 3500, "Normal"⟩),
   ("case_fan_1", ⟨800, 40, 2000, "Normal"⟩),
   ("case_fan_2", ⟨750, 38, 2000, "Normal"⟩),
   ("case_fan_3", ⟨700, 35, 2000, "Normal"⟩)]

/-- _update_fan_status_real_time (src 1341-1392).  fenv gives the two
random.uniform draws of the selected branch for each fan id (the load /
variation factor and the additive rpm term; their documented bounds differ
per branch and enter only as hypotheses).  All three branches compute
int(base_rpm * factor + additive) and then
int(current_rpm / max_rpm * 100); the max_rpm .get defaults never apply
because the field is always present.  A zero max_rpm would raise
ZeroDivisionError in Python; the fan maps of this engine always carry
positive max_rpm. -/
def updateFanStatusRealTime (fans : FMap) (fenv : String → ℚ × ℚ) : FMap :=
  fans.map (fun kv =>
    let fi := kv.2
    let base_rpm : ℚ := (fi.max_rpm : ℚ) * 0.4
    let d := fenv kv.1
    let raw_rpm : ℤ :=
      if kv.1 = "cpu_fan" then pyInt (base_rpm * d.1 + d.2)
      else if kv.1 = "gpu_fan" then pyInt (base_rpm * d.1 + d.2)
      else pyInt (base_rpm * d.1 + d.2)
    let raw_speed : ℤ := pyInt ((raw_rpm : ℚ) / (fi.max_rpm : ℚ) * 100)
    let current_rpm := max 200 (min fi.max_rpm raw_rpm)
    let current_speed := max 10 (min 100 raw_speed)
    (kv.1, { current_rpm := current_rpm, current_speed := current_speed,
             max_rpm := fi.max_rpm,
             status := fanStatusOfSpeed current_speed }))

/-- get_fan_status (src 1331-1339), value level: initialize if empty, run one
refresh, return the map (aliasing is treated in the object model below). -/
def getFanStatus (e : Engine) (fenv : String → ℚ × ℚ) : Engine × FMap :=
  let m := if e.fan_status = [] then initialFanStatus else e.fan_status
  let m2 := updateFanStatusRealTime m fenv
  ({ e with fan_status := m2 }, m2)

/-- set_fan_speed (src 1437-1455): if the id is present, store the percent
and int((percent / 100.0) * max_rpm) in that fan's record and return True;
otherwise return False and change nothing. -/
def set_fan_speed (e : Engine) (fanId : String) (percent : ℤ) : Engine × Bool :=
  if (lookupFan e.fan_status fanId).isSome then
    ({ e with fan_status := e.fan_status.map (fun kv =>
        if kv.1 = fanId then
          (kv.1, { kv.2 with
            current_speed := percent,
            current_rpm := pyInt ((percent : ℚ) / 100 * (kv.2.max_rpm : ℚ)) })
        else kv) }, true)
  else (e, false)

/-- The fan-map invariant of the spec: every current_rpm lies in
[0, max_rpm]. -/
def rpmInvariant (m : FMap) : Prop :=
  ∀ kv ∈ m, 0 ≤ kv.2.current_rpm ∧ kv.2.current_rpm ≤ kv.2.max_rpm

instance (m : FMap) : Decidable (rpmInvariant m) :=
  List.decidableBAll _ m

/-- Engine state right after __init__ ran detection (sensor content does not
matter for the fan claims) and _initialize_fan_status. -/
def engine0 : Engine :=
  { sensors := [], fan_status := initialFanStatus,
    cache := ⟨0, 0, 0, 0⟩ }

/-- A sequence of refresh ticks: one (time, OS snapshot, jitter) triple per
call to get_updated_sensors. -/
def refreshIter (l : List (ℚ × OsEnv × (String → ℚ))) (e : Engine) : Engine :=
  l.foldl (fun acc p => (getUpdatedSensors acc p.1 p.2.1 p.2.2).1) e

/-- Object-level engine: Python dict objects live in two small heaps indexed
by addresses, and the engine holds the address of its sensor map and of its
fan map.  Addresses below nextS / nextF are allocated. -/
structure ObjEngine where
  heapS : ℕ → SMap
  heapF : ℕ → FMap
  sensorsRef : ℕ
  fanRef : ℕ
  nextS : ℕ
  nextF : ℕ
  cache : CacheState

/-- A caller mutating a sensor-map object in place. -/
def writeS (e : ObjEngine) (a : ℕ) (m : SMap) : ObjEngine :=
  { e with heapS := fun n => if n = a then m else e.heapS n }

/-- A caller mutating a fan-map object in place. -/
def writeF (e : ObjEngine) (a : ℕ) (m : FMap) : ObjEngine :=
  { e with heapF := fun n => if n = a then m else e.heapF n }

/-- get_updated_sensors at object level: the dict literal at src 1041 is a
fresh allocation filled with copies of the records; the engine keeps
pointing at its own map. -/
def getUpdatedSensorsObj (e : ObjEngine) (now : ℚ) (os : OsEnv)
    (jit : String → ℚ) : ObjEngine × ℕ :=
  let res := (e.heapS e.sensorsRef).foldl (tickStep now os jit) (e.cache, [])
  let a := e.nextS
  ({ e with heapS := fun n => if n = a then res.2 else e.heapS n,
            nextS := a + 1, cache := res.1 }, a)

/-- get_fan_status at object level: the refresh mutates the fan records
inside self.fan_status and the method returns self.fan_status itself
(src 1339) - the same object the engine keeps using. -/
def getFanStatusObj (e : ObjEngine) (fenv : String → ℚ × ℚ) :
    ObjEngine × ℕ :=
  let m := e.heapF e.fanRef
  let m1 := if m = [] then initialFanStatus else m
  let m2 := updateFanStatusRealTime m1 fenv
  ({ e with heapF := fun n => if n = e.fanRef then m2 else e.heapF n },
   e.fanRef)

/-- Concrete object-level engine after __init__: sensor map object at
address 0 (content irrelevant here), fan map object at address 0. -/
def objEngine0 : ObjEngine :=
  { heapS := fun _ => [],
    heapF := fun n => if n = 0 then initialFanStatus else [],
    sensorsRef := 0, fanRef := 0, nextS := 1, nextF := 1,
    cache := ⟨0, 0, 0, 0⟩ }

/-- Zero draws for a fan refresh, used by concrete instances. -/
def fenv0 : String → ℚ × ℚ := fun _ => (0, 0)

/-- A concrete OS snapshot for witnesses. -/
def osEnv0 : OsEnv :=
  { cpuPercent := 50, memoryPercent := 40, cpuOk := true, memOk := true,
    cpuFreq := some 3000, memUsed := 8, memTotal := 16, diskIo := some 0,
    diskOk := true }

/-- A concrete generation environment for witnesses. -/
def genEnv0 : GenEnv :=
  { psutilOk := true, cpuPercent := 50, memoryPercent := 40,
    cpuFreq := some 3000,
    cpuCount := 2, cpuCountLogical := 4, procName := "TestCPU",
    memTotal := 17179869184, memUsed := 8589934592, gpuName := "TestGPU",
    partitions := [], diskIo := some 0, storageExc := false,
    jCpuPkg := 0, jCore := fun _ => 0, jThread := fun _ => 0,
    jRamModule := fun _ => 0, jRamController := 0, jDimm := fun _ => 0,
    jGpu := 0, jGpuMemory := 0, jGpuVrm := 3, jGpuHotspot := 6,
    jGpuFan := 6, jMotherboard := 0, jChipset := 0, jSouthbridge := 0,
    jPcie := fun _ => 0, jVrm := 6, jSsd := 0, jSsdController := 3,
    jHdd := 0, jHddMotor := 4, jNvme := 0, jStorageDefault := 0, jPsu := 0 }

/-- A concrete sensor map for the refresh-range witness. -/
def sensorsW : SMap :=
  [("cpu_package", ⟨"CPU Package", "CPU", 50, "Simulated (Load+Freq-based)"⟩),
   ("storage_ssd", ⟨"Primary SSD", "Storage", 30, "Simulated (SSD IO-based)"⟩),
   ("psutil_coretemp_0", ⟨"coretemp Sensor 1", "CPU", 44,
      "psutil.sensors_temperatures"⟩)]

/-- Engine used by the refresh witnesses. -/
def engineW : Engine :=
  { sensors := sensorsW, fan_status := initialFanStatus,
    cache := ⟨0, 0, 35, 45⟩ }

/-- Engine with the three simulated GPU sensors, for the GPU-ordering
witness. -/
def engineG : Engine :=
  { sensors :=
      [("gpu_core", ⟨"G Core", "GPU", 40, "Simulated (Activity-based)"⟩),
       ("gpu_hotspot", ⟨"G Hot Spot", "GPU", 46, "Simulated (GPU Hot Spot)"⟩),
       ("gpu_fan", ⟨"G Fan", "GPU", 30, "Simulated (GPU Fan)"⟩)],
    fan_status := initialFanStatus,
    cache := ⟨0, 0, 35, 45⟩ }

/-- The record get_updated_sensors emits for one stored entry, phrased with
the metric values in force when the tick started in cache state st. -/
def tickEntry (now : ℚ) (os : OsEnv) (jit : String → ℚ) (st : CacheState)
    (kv : String × Sensor) : String × Sensor :=
  (kv.1, { kv.2 with
    current := updateSimTemp kv.1 kv.2 now os (jit kv.1)
      (cpuVal now os st) (memVal now os st) })

/-- Engine holding one simulated SSD sensor stored at the 45-degree ceiling
of its creation range. -/
def engineSsd : Engine :=
  { sensors := [("storage_ssd", ⟨"Primary SSD", "Storage", 45,
      "Simulated (SSD IO-based)"⟩)],
    fan_status := initialFanStatus, cache := ⟨0, 0, 35, 45⟩ }

/-- OS snapshot in which psutil.disk_io_counters raises during the tick. -/
def osDiskFail : OsEnv :=
  { cpuPercent := 50, memoryPercent := 40, cpuOk := true, memOk := true,
    cpuFreq := some 3000, memUsed := 8, memTotal := 16, diskIo := some 0,
    diskOk := false }

/-- Placeholder entry for safe list indexing in concrete instances. -/
def dfltEntry : String × Sensor := ("", ⟨"", "", 0, ""⟩)

/-- First entry of a concrete refreshed map, used by a concrete instance. -/
def c1WitnessEntry : String × Sensor :=
  ((getUpdatedSensors engineW 0 osEnv0 (fun _ => 0)).2).headD dfltEntry

/-- Concrete refreshed map of the GPU engine. -/
def c6wOut : SMap := (getUpdatedSensors engineG 0 osEnv0 (fun _ => 0)).2

/-- Clamping with max lo (min hi x) lands in [lo, hi]. -/
theorem clampMem (lo hi x : ℚ) (h : lo ≤ hi) :
    lo ≤ max lo (min hi x) ∧ max lo (min hi x) ≤ hi :=
  ⟨le_max_left _ _, max_le h (min_le_left _ _)⟩

/-- dictInsert never returns an empty map. -/
theorem dictInsert_ne_nil (m : SMap) (k : String) (v : Sensor) :
    dictInsert m k v ≠ [] := by
  unfold dictInsert
  split_ifs with h
  · cases m with
    | nil => simp at h
    | cons a t => simp
  · simp

/-- A fold whose step never empties the accumulator keeps it non-empty. -/
theorem foldl_ne_nil {α : Type} (step : SMap → α → SMap)
    (hstep : ∀ m a, step m a ≠ []) :
    ∀ (l : List α) (m : SMap), m ≠ [] → l.foldl step m ≠ [] := by
  intro l
  induction l with
  | nil => intro m hm; simpa using hm
  | cons a t ih => intro m _; simpa using ih _ (hstep m a)

/-- An if-then-else of two non-empty maps is non-empty. -/
theorem ite_ne_nil {c : Prop} [Decidable c] {a b : SMap}
    (ha : a ≠ []) (hb : b ≠ []) : (if c then a else b) ≠ [] := by
  split_ifs <;> assumption

/-- When the leading psutil reads succeed, the synthetic generator produces
at least one sensor (cpu_package is inserted before any later branch can
raise). -/
theorem createSimulatedSensors_ne_nil (g : GenEnv) (h : g.psutilOk = true) :
    createSimulatedSensors g ≠ [] := by
  have hn : ¬ (g.psutilOk = false) := by simp [h]
  simp only [createSimulatedSensors]
  rw [if_neg hn]
  apply ite_ne_nil
  · apply ite_ne_nil
    · exact foldl_ne_nil _ (fun m a => dictInsert_ne_nil _ _ _) _ _
        (foldl_ne_nil _ (fun m a => dictInsert_ne_nil _ _ _) _ _
          (dictInsert_ne_nil _ _ _))
    · exact foldl_ne_nil _ (fun m a => dictInsert_ne_nil _ _ _) _ _
        (dictInsert_ne_nil _ _ _)
  · exact dictInsert_ne_nil _ _ _

/-- dictUpdate with a non-empty right argument is non-empty. -/
theorem dictUpdate_ne_nil (m m2 : SMap) (h : m2 ≠ []) :
    dictUpdate m m2 ≠ [] := by
  unfold dictUpdate
  cases m2 with
  | nil => exact absurd rfl h
  | cons kv t =>
      simpa using foldl_ne_nil _ (fun m a => dictInsert_ne_nil _ _ _) t _
        (dictInsert_ne_nil m kv.1 kv.2)

/-- A memory-cache read never changes the cpu-cache fields. -/
theorem memRead_cpu_fields (now v : ℚ) (ok : Bool) (s : CacheState) :
    ((getCachedMemoryPercent now v ok s).state).lastCpuCheck = s.lastCpuCheck ∧
    ((getCachedMemoryPercent now v ok s).state).cachedCpuPercent
      = s.cachedCpuPercent := by
  unfold getCachedMemoryPercent
  split_ifs <;> exact ⟨rfl, rfl⟩

/-- A cpu-cache read never changes the memory-cache fields. -/
theorem cpuRead_mem_fields (now v : ℚ) (ok : Bool) (s : CacheState) :
    ((getCachedCpuPercent now v ok s).state).lastMemoryCheck
      = s.lastMemoryCheck ∧
    ((getCachedCpuPercent now v ok s).state).cachedMemoryPercent
      = s.cachedMemoryPercent := by
  unfold getCachedCpuPercent
  split_ifs <;> exact ⟨rfl, rfl⟩

/-- The value of a cpu-cache read depends only on the cpu-cache fields. -/
theorem cpuRead_value_congr (now v : ℚ) (ok : Bool) {s1 s2 : CacheState}
    (h1 : s1.lastCpuCheck = s2.lastCpuCheck)
    (h2 : s1.cachedCpuPercent = s2.cachedCpuPercent) :
    (getCachedCpuPercent now v ok s1).value
      = (getCachedCpuPercent now v ok s2).value := by
  unfold getCachedCpuPercent
  simp only [apply_ite CacheReadResult.value]
  rw [h1, h2]

/-- The value of a memory-cache read depends only on the memory-cache
fields. -/
theorem memRead_value_congr (now v : ℚ) (ok : Bool) {s1 s2 : CacheState}
    (h1 : s1.lastMemoryCheck = s2.lastMemoryCheck)
    (h2 : s1.cachedMemoryPercent = s2.cachedMemoryPercent) :
    (getCachedMemoryPercent now v ok s1).value
      = (getCachedMemoryPercent now v ok s2).value := by
  unfold getCachedMemoryPercent
  simp only [apply_ite CacheReadResult.value]
  rw [h1, h2]

/-- Reading the cpu cache twice at one instant yields the same value. -/
theorem cpuRead_value_stable (now v : ℚ) (ok : Bool) (s : CacheState) :
    (getCachedCpuPercent now v ok
      ((getCachedCpuPercent now v ok s).state)).value
      = (getCachedCpuPercent now v ok s).value := by
  unfold getCachedCpuPercent
  by_cases hA : cacheDuration < now - s.lastCpuCheck
  · by_cases hok : ok = true
    · have hz : ¬ cacheDuration < (0 : ℚ) := by
        norm_num [cacheDuration]
      simp [hA, hok, hz]
    · simp [hA, hok]
  · simp [hA]

/-- Reading the memory cache twice at one instant yields the same value. -/
theorem memRead_value_stable (now v : ℚ) (ok : Bool) (s : CacheState) :
    (getCachedMemoryPercent now v ok
      ((getCachedMemoryPercent now v ok s).state)).value
      = (getCachedMemoryPercent now v ok s).value := by
  unfold getCachedMemoryPercent
  by_cases hA : cacheDuration < now - s.lastMemoryCheck
  · by_cases hok : ok = true
    · have hz : ¬ cacheDuration < (0 : ℚ) := by
        norm_num [cacheDuration]
      simp [hA, hok, hz]
    · simp [hA, hok]
  · simp [hA]

/-- One sensor update leaves the cpu value the next update will read
unchanged. -/
theorem cpuVal_cacheStep (now : ℚ) (os : OsEnv) (st : CacheState) :
    cpuVal now os (cacheStep now os st) = cpuVal now os st := by
  unfold cpuVal cacheStep
  have h := memRead_cpu_fields now os.memoryPercent os.memOk
    ((getCachedCpuPercent now os.cpuPercent os.cpuOk st).state)
  rw [cpuRead_value_congr now os.cpuPercent os.cpuOk h.1 h.2]
  exact cpuRead_value_stable now os.cpuPercent os.cpuOk st

/-- The memory value a sensor update reads equals a direct memory-cache read
from the same state (the preceding cpu read does not touch it). -/
theorem memVal_eq_raw (now : ℚ) (os : OsEnv) (s : CacheState) :
    memVal now os s
      = (getCachedMemoryPercent now os.memoryPercent os.memOk s).value := by
  unfold memVal
  have h := cpuRead_mem_fields now os.cpuPercent os.cpuOk s
  exact memRead_value_congr now os.memoryPercent os.memOk h.1 h.2

/-- One sensor update leaves the memory value the next update will read
unchanged. -/
theorem memVal_cacheStep (now : ℚ) (os : OsEnv) (st : CacheState) :
    memVal now os (cacheStep now os st) = memVal now os st := by
  rw [memVal_eq_raw, memVal_eq_raw]
  unfold cacheStep
  rw [memRead_value_stable]
  have h := cpuRead_mem_fields now os.cpuPercent os.cpuOk st
  exact memRead_value_congr now os.memoryPercent os.memOk h.1 h.2

/-- One pass of the get_updated_sensors loop, stated with the start-of-tick
metric values. -/
theorem tickStep_eq (now : ℚ) (os : OsEnv) (jit : String → ℚ)
    (st : CacheState) (acc : SMap) (kv : String × Sensor) :
    tickStep now os jit (st, acc) kv
      = (cacheStep now os st, acc ++ [tickEntry now os jit st kv]) := rfl

/-- The get_updated_sensors loop maps each stored record to a copy whose
current value is the dispatch applied to the metric values in force when the
tick started. -/
theorem tick_out_spec (now : ℚ) (os : OsEnv) (jit : String → ℚ) :
    ∀ (l : SMap) (st : CacheState) (acc : SMap),
      (l.foldl (tickStep now os jit) (st, acc)).2
        = acc ++ l.map (tickEntry now os jit st) := by
  intro l
  induction l with
  | nil => intro st acc; simp
  | cons kv t ih =>
      intro st acc
      rw [List.foldl_cons, tickStep_eq, ih]
      simp [tickEntry, cpuVal_cacheStep, memVal_cacheStep]

/-- Closed form of the map returned by get_updated_sensors. -/
theorem getUpdatedSensors_snd (e : Engine) (now : ℚ) (os : OsEnv)
    (jit : String → ℚ) :
    (getUpdatedSensors e now os jit).2
      = e.sensors.map (tickEntry now os jit e.cache) := by
  have h := tick_out_spec now os jit e.sensors e.cache []
  simpa [getUpdatedSensors] using h

/-- get_updated_sensors never reassigns self.sensors. -/
theorem getUpdatedSensors_sensors (e : Engine) (now : ℚ) (os : OsEnv)
    (jit : String → ℚ) :
    (getUpdatedSensors e now os jit).1.sensors = e.sensors := rfl

set_option maxHeartbeats 1600000 in
/-- Every dispatch branch of _update_simulated_sensor clamps its result into
the declared per-kind range, provided the numeric key suffixes the selected
branch parses are well formed, memory.total is non-zero, and the disk-IO
query of the storage branch does not raise. -/
theorem updateSimTemp_range (key : String) (info : Sensor) (now : ℚ)
    (os : OsEnv) (j cpu mem : ℚ) (hmt : os.memTotal ≠ 0)
    (hdisk : os.diskOk = true)
    (hwf : strContains info.method "Simulated" = true →
      wellFormedKey key = true) :
    (updateClampRange key info.method).1
      ≤ updateSimTemp key info now os j cpu mem ∧
    updateSimTemp key info now os j cpu mem
      ≤ (updateClampRange key info.method).2 := by
  by_cases hsim : strContains info.method "Simulated" = true
  case neg =>
    have hf : strContains info.method "Simulated" = false := by
      cases hb : strContains info.method "Simulated"
      · rfl
      · exact absurd hb hsim
    unfold updateSimTemp updateClampRange
    rw [if_pos hf, if_pos hf]
    exact clampMem _ _ _ (by norm_num)
  case pos =>
    have hwf2 := hwf hsim
    have hco : ¬ (strContains info.method "Simulated" = false) := by
      simp [hsim]
    unfold updateSimTemp updateClampRange
    rw [if_neg hco, if_neg hco]
    unfold wellFormedKey at hwf2
    by_cases h1 : key = "cpu_package"
    · rw [if_pos h1, if_pos h1]
      exact clampMem _ _ _ (by norm_num)
    · rw [if_neg h1, if_neg h1]
      rw [if_neg h1] at hwf2
      by_cases h2 : strContains key "cpu_core_" = true
      · rw [if_pos h2, if_pos h2]
        rw [if_pos h2] at hwf2
        cases hp : ((key.splitOn "_").getLastD "").toNat? with
        | none =>
            rw [hp] at hwf2
            simp at hwf2
        | some n =>
            exact clampMem _ _ _ (by norm_num)
      · rw [if_neg h2, if_neg h2]
        rw [if_neg h2] at hwf2
        by_cases h3 : strContains key "cpu_thread_" = true
        · rw [if_pos h3, if_pos h3]
          rw [if_pos h3] at hwf2
          cases hp : ((key.splitOn "_").getLastD "").toNat? with
          | none =>
              rw [hp] at hwf2
              simp at hwf2
          | some n =>
              exact clampMem _ _ _ (by norm_num)
        · rw [if_neg h3, if_neg h3]
          rw [if_neg h3] at hwf2
          by_cases h4 : strContains key "ram_module_" = true
          · rw [if_pos h4, if_pos h4]
            rw [if_pos h4] at hwf2
            cases hp : ((key.splitOn "_").getLastD "").toNat? with
            | none =>
                rw [hp] at hwf2
                simp at hwf2
            | some n =>
                dsimp only
                rw [if_neg hmt]
                exact clampMem _ _ _ (by norm_num)
          · rw [if_neg h4, if_neg h4]
            rw [if_neg h4] at hwf2
            by_cases h5 : key = "ram_controller"
            · rw [if_pos h5, if_pos h5]
              rw [if_neg hmt]
              exact clampMem _ _ _ (by norm_num)
            · rw [if_neg h5, if_neg h5]
              rw [if_neg h5] at hwf2
              by_cases h6 : strContains key "ram_dimm_" = true
              · rw [if_pos h6, if_pos h6]
                rw [if_pos h6] at hwf2
                cases hp : ((key.splitOn "_").getLastD "").toNat? with
                | none =>
                    rw [hp] at hwf2
                    simp at hwf2
                | some n =>
                    exact clampMem _ _ _ (by norm_num)
              · rw [if_neg h6, if_neg h6]
                rw [if_neg h6] at hwf2
                by_cases h7 : key = "gpu_core"
                · rw [if_pos h7, if_pos h7]
                  exact clampMem _ _ _ (by norm_num)
                · rw [if_neg h7, if_neg h7]
                  rw [if_neg h7] at hwf2
                  by_cases h8 : key = "gpu_memory"
                  · rw [if_pos h8, if_pos h8]
                    exact clampMem _ _ _ (by norm_num)
                  · rw [if_neg h8, if_neg h8]
                    rw [if_neg h8] at hwf2
                    by_cases h9 : key = "gpu_vrm"
                    · rw [if_pos h9, if_pos h9]
                      exact clampMem _ _ _ (by norm_num)
                    · rw [if_neg h9, if_neg h9]
                      rw [if_neg h9] at hwf2
                      by_cases h10 : key = "gpu_hotspot"
                      · rw [if_pos h10, if_pos h10]
                        exact clampMem _ _ _ (by norm_num)
                      · rw [if_neg h10, if_neg h10]
                        rw [if_neg h10] at hwf2
                        by_cases h11 : key = "gpu_fan"
                        · rw [if_pos h11, if_pos h11]
                          exact clampMem _ _ _ (by norm_num)
                        · rw [if_neg h11, if_neg h11]
                          rw [if_neg h11] at hwf2
                          by_cases h12 : key = "motherboard"
                          · rw [if_pos h12, if_pos h12]
                            exact clampMem _ _ _ (by norm_num)
                          · rw [if_neg h12, if_neg h12]
                            rw [if_neg h12] at hwf2
                            by_cases h13 : key = "chipset"
                            · rw [if_pos h13, if_pos h13]
                              exact clampMem _ _ _ (by norm_num)
                            · rw [if_neg h13, if_neg h13]
                              rw [if_neg h13] at hwf2
                              by_cases h14 : key = "southbridge"
                              · rw [if_pos h14, if_pos h14]
                                exact clampMem _ _ _ (by norm_num)
                              · rw [if_neg h14, if_neg h14]
                                rw [if_neg h14] at hwf2
                                by_cases h15 : strContains key "pcie_slot_" = true
                                · rw [if_pos h15, if_pos h15]
                                  rw [if_pos h15] at hwf2
                                  cases hp : ((key.splitOn "_").getLastD "").toNat? with
                                  | none =>
                                      rw [hp] at hwf2
                                      simp at hwf2
                                  | some n =>
                                      exact clampMem _ _ _ (by norm_num)
                                · rw [if_neg h15, if_neg h15]
                                  rw [if_neg h15] at hwf2
                                  by_cases h16 : key = "vrm"
                                  · rw [if_pos h16, if_pos h16]
                                    exact clampMem _ _ _ (by norm_num)
                                  · rw [if_neg h16, if_neg h16]
                                    by_cases h17 : strContains key "storage_" = true
                                    · rw [if_pos h17, if_pos h17]
                                      rw [if_neg (show ¬ (os.diskOk = false) by
                                        simp [hdisk])]
                                      dsimp only
                                      by_cases hs1 : strContains key "ssd" = true
                                      · rw [if_pos hs1, if_pos hs1]
                                        exact clampMem _ _ _ (by norm_num)
                                      · rw [if_neg hs1, if_neg hs1]
                                        by_cases hs2 : strContains key "hdd" = true
                                        · rw [if_pos hs2, if_pos hs2]
                                          exact clampMem _ _ _ (by norm_num)
                                        · rw [if_neg hs2, if_neg hs2]
                                          by_cases hs3 : strContains key "nvme" = true
                                          · rw [if_pos hs3, if_pos hs3]
                                            exact clampMem _ _ _ (by norm_num)
                                          · rw [if_neg hs3, if_neg hs3]
                                            exact clampMem _ _ _ (by norm_num)
                                    · rw [if_neg h17, if_neg h17]
                                      by_cases h18 : key = "psu"
                                      · rw [if_pos h18, if_pos h18]
                                        exact clampMem _ _ _ (by norm_num)
                                      · rw [if_neg h18, if_neg h18]
                                        exact clampMem _ _ _ (by norm_num)


/-- Keys are unchanged entrywise by the tick map. -/
theorem map_fst_tickEntry (now : ℚ) (os : OsEnv) (jit : String → ℚ)
    (st : CacheState) (l : SMap) :
    (l.map (tickEntry now os jit st)).map Prod.fst = l.map Prod.fst := by
  induction l with
  | nil => rfl
  | cons kv t ih => simp [tickEntry, ih]

/-- The detection fold ignores empty contributions. -/
theorem foldl_empty_results (l : List SMap) (acc : SMap)
    (h : ∀ r ∈ l, r = []) :
    l.foldl (fun acc r => if r = [] then acc else dictUpdate acc r) acc
      = acc := by
  induction l generalizing acc with
  | nil => rfl
  | cons r t ih =>
      rw [List.foldl_cons, if_pos (h r (by simp))]
      exact ih acc (fun x hx => h x (by simp [hx]))

/-- Looking up the updated id after the in-place update of set_fan_speed. -/
theorem lookupFan_set_update (l : FMap) (id : String) (p : ℤ) :
    lookupFan (l.map (fun kv => if kv.1 = id then
        (kv.1, { kv.2 with
          current_speed := p,
          current_rpm := pyInt ((p : ℚ) / 100 * (kv.2.max_rpm : ℚ)) })
      else kv)) id
      = (lookupFan l id).map (fun v => { v with
          current_speed := p,
          current_rpm := pyInt ((p : ℚ) / 100 * (v.max_rpm : ℚ)) }) := by
  induction l with
  | nil => rfl
  | cons kv t ih =>
      by_cases h : kv.1 = id
      · simp [lookupFan, h]
      · simp [lookupFan, h, ih]

/-- Looking up any other id after the in-place update of set_fan_speed. -/
theorem lookupFan_set_other (l : FMap) (id id2 : String) (hne : id2 ≠ id)
    (p : ℤ) :
    lookupFan (l.map (fun kv => if kv.1 = id then
        (kv.1, { kv.2 with
          current_speed := p,
          current_rpm := pyInt ((p : ℚ) / 100 * (kv.2.max_rpm : ℚ)) })
      else kv)) id2
      = lookupFan l id2 := by
  induction l with
  | nil => rfl
  | cons kv t ih =>
      by_cases h : kv.1 = id
      · have h2 : ¬ kv.1 = id2 := by
          rw [h]
          exact fun hh => hne hh.symm
        have h3 : ¬ id = id2 := fun hh => hne hh.symm
        simp [lookupFan, h, h2, h3, ih]
      · by_cases h2 : kv.1 = id2
        · simp [lookupFan, h, h2, hne, ih]
        · simp [lookupFan, h, h2, ih]

/-- A successful fan lookup exhibits a member of the map. -/
theorem lookupFan_mem (l : FMap) (id : String) (f : Fan)
    (h : lookupFan l id = some f) : (id, f) ∈ l := by
  induction l with
  | nil => simp [lookupFan] at h
  | cons kv t ih =>
      simp only [lookupFan] at h
      split_ifs at h with hh
      · obtain ⟨a, b⟩ := kv
        cases hh
        cases Option.some.inj h
        exact List.mem_cons_self _ _
      · exact List.mem_cons_of_mem _ (ih h)

/-- Python int() on an integer value is that integer. -/
theorem pyInt_intCast (n : ℤ) : pyInt ((n : ℚ)) = n := by
  unfold pyInt
  split_ifs <;> simp

/-- Python round() on an integer value is that integer. -/
theorem pyRound_intCast (n : ℤ) : pyRound ((n : ℚ)) = n := by
  simp [pyRound]

/-- When max_rpm is a multiple of 100, the truncation set_fan_speed applies
agrees with rounding, because percent / 100 * max_rpm is an exact integer. -/
theorem pyInt_div100_eq_pyRound (p m : ℤ) (h : (100 : ℤ) ∣ m) :
    pyInt ((p : ℚ) / 100 * (m : ℚ)) = pyRound ((p : ℚ) / 100 * (m : ℚ)) := by
  obtain ⟨k, rfl⟩ := h
  have hq : ((p : ℚ) / 100 * ((100 * k : ℤ) : ℚ)) = ((p * k : ℤ) : ℚ) := by
    push_cast
    ring
  rw [hq, pyInt_intCast, pyRound_intCast]

/-- The cpu value a tick reads is one of the OS value or the cached value. -/
theorem cpuVal_bounds (now : ℚ) (os : OsEnv) (st : CacheState)
    (h1 : 0 ≤ os.cpuPercent) (h2 : os.cpuPercent ≤ 100)
    (h3 : 0 ≤ st.cachedCpuPercent) (h4 : st.cachedCpuPercent ≤ 100) :
    0 ≤ cpuVal now os st ∧ cpuVal now os st ≤ 100 := by
  unfold cpuVal getCachedCpuPercent
  split_ifs <;> exact ⟨by assumption, by assumption⟩

/-- The memory value a tick reads is one of the OS value or the cached
value. -/
theorem memVal_bounds (now : ℚ) (os : OsEnv) (st : CacheState)
    (h1 : 0 ≤ os.memoryPercent) (h2 : os.memoryPercent ≤ 100)
    (h3 : 0 ≤ st.cachedMemoryPercent) (h4 : st.cachedMemoryPercent ≤ 100) :
    0 ≤ memVal now os st ∧ memVal now os st ≤ 100 := by
  rw [memVal_eq_raw]
  unfold getCachedMemoryPercent
  split_ifs <;> exact ⟨by assumption, by assumption⟩

/-- Dispatch value at the simulated gpu_core key. -/
theorem updateSimTemp_gpu_core (info : Sensor) (now : ℚ) (os : OsEnv)
    (j v m : ℚ) (hs : strContains info.method "Simulated" = true) :
    updateSimTemp "gpu_core" info now os j v m
      = max 25 (min 80 (30 + (m * 0.3 + v * 0.4) / 100 * 25 + j)) := by
  have hco : ¬ (strContains info.method "Simulated" = false) := by simp [hs]
  unfold updateSimTemp
  rw [if_neg hco]
  rw [if_neg (show ¬ (("gpu_core" : String) = "cpu_package") by decide)]
  rw [if_neg (show ¬ (strContains "gpu_core" "cpu_core_" = true) by decide)]
  rw [if_neg (show ¬ (strContains "gpu_core" "cpu_thread_" = true) by decide)]
  rw [if_neg (show ¬ (strContains "gpu_core" "ram_module_" = true) by decide)]
  rw [if_neg (show ¬ (("gpu_core" : String) = "ram_controller") by decide)]
  rw [if_neg (show ¬ (strContains "gpu_core" "ram_dimm_" = true) by decide)]
  rw [if_pos (show ("gpu_core" : String) = "gpu_core" from rfl)]

/-- Dispatch value at the simulated gpu_hotspot key. -/
theorem updateSimTemp_gpu_hotspot (info : Sensor) (now : ℚ) (os : OsEnv)
    (j v m : ℚ) (hs : strContains info.method "Simulated" = true) :
    updateSimTemp "gpu_hotspot" info now os j v m
      = max 30 (min 85 (35 + (m * 0.3 + v * 0.4) / 100 * 30 + j)) := by
  have hco : ¬ (strContains info.method "Simulated" = false) := by simp [hs]
  unfold updateSimTemp
  rw [if_neg hco]
  rw [if_neg (show ¬ (("gpu_hotspot" : String) = "cpu_package") by decide)]
  rw [if_neg (show ¬ (strContains "gpu_hotspot" "cpu_core_" = true) by decide)]
  rw [if_neg (show ¬ (strContains "gpu_hotspot" "cpu_thread_" = true) by decide)]
  rw [if_neg (show ¬ (strContains "gpu_hotspot" "ram_module_" = true) by decide)]
  rw [if_neg (show ¬ (("gpu_hotspot" : String) = "ram_controller") by decide)]
  rw [if_neg (show ¬ (strContains "gpu_hotspot" "ram_dimm_" = true) by decide)]
  rw [if_neg (show ¬ (("gpu_hotspot" : String) = "gpu_core") by decide)]
  rw [if_neg (show ¬ (("gpu_hotspot" : String) = "gpu_memory") by decide)]
  rw [if_neg (show ¬ (("gpu_hotspot" : String) = "gpu_vrm") by decide)]
  rw [if_pos (show ("gpu_hotspot" : String) = "gpu_hotspot" from rfl)]

/-- Dispatch value at the simulated gpu_fan key. -/
theorem updateSimTemp_gpu_fan (info : Sensor) (now : ℚ) (os : OsEnv)
    (j v m : ℚ) (hs : strContains info.method "Simulated" = true) :
    updateSimTemp "gpu_fan" info now os j v m
      = max 20 (min 60 (25 + (m * 0.3 + v * 0.4) / 100 * 10 + j)) := by
  have hco : ¬ (strContains info.method "Simulated" = false) := by simp [hs]
  unfold updateSimTemp
  rw [if_neg hco]
  rw [if_neg (show ¬ (("gpu_fan" : String) = "cpu_package") by decide)]
  rw [if_neg (show ¬ (strContains "gpu_fan" "cpu_core_" = true) by decide)]
  rw [if_neg (show ¬ (strContains "gpu_fan" "cpu_thread_" = true) by decide)]
  rw [if_neg (show ¬ (strContains "gpu_fan" "ram_module_" = true) by decide)]
  rw [if_neg (show ¬ (("gpu_fan" : String) = "ram_controller") by decide)]
  rw [if_neg (show ¬ (strContains "gpu_fan" "ram_dimm_" = true) by decide)]
  rw [if_neg (show ¬ (("gpu_fan" : String) = "gpu_core") by decide)]
  rw [if_neg (show ¬ (("gpu_fan" : String) = "gpu_memory") by decide)]
  rw [if_neg (show ¬ (("gpu_fan" : String) = "gpu_vrm") by decide)]
  rw [if_neg (show ¬ (("gpu_fan" : String) = "gpu_hotspot") by decide)]
  rw [if_pos (show ("gpu_fan" : String) = "gpu_fan" from rfl)]

/-- set_fan_speed never touches any status field. -/
theorem map_status_update (l : FMap) (id : String) (p : ℤ) :
    ((l.map (fun kv => if kv.1 = id then
        (kv.1, { kv.2 with
          current_speed := p,
          current_rpm := pyInt ((p : ℚ) / 100 * (kv.2.max_rpm : ℚ)) })
      else kv)).map (fun kv => kv.2.status))
      = l.map (fun kv => kv.2.status) := by
  induction l with
  | nil => rfl
  | cons kv t ih => by_cases h : kv.1 = id <;> simp [h, ih]

/-- The default-headed first element of a non-empty list is a member. -/
theorem headD_mem_of_ne_nil {α : Type} (l : List α) (d : α) (h : l ≠ []) :
    l.headD d ∈ l := by
  cases l with
  | nil => exact absurd rfl h
  | cons a t => exact List.mem_cons_self a t

/-- C1 (amended): every sensor record in the map returned by
get_updated_sensors has a finite current value (a rational, by construction)
lying in the closed per-kind clamp range of its update formula - [30, 85]
for cpu_package, [20, 45] for the simulated SSD, [20, 100] for non-simulated
sensors, and so on per updateClampRange - for all cached-metric inputs
(memory.total non-zero) and all values of the random jitter, provided the
storage branch's disk-IO query does not raise; when it raises, the inner
except instead clamps last value + jitter to [25, 55] for every storage
kind, which can exceed the SSD's 45-degree ceiling (see the
counterexample). -/
theorem c1_refresh_values_within_declared_ranges
    (e : Engine) (now : ℚ) (os : OsEnv) (jit : String → ℚ)
    (hmt : os.memTotal ≠ 0) (hdisk : os.diskOk = true)
    (hwf : ∀ kv ∈ e.sensors, strContains kv.2.method "Simulated" = true →
      wellFormedKey kv.1 = true) :
    ∀ kv ∈ (getUpdatedSensors e now os jit).2,
      (updateClampRange kv.1 kv.2.method).1 ≤ kv.2.current ∧
      kv.2.current ≤ (updateClampRange kv.1 kv.2.method).2 := by
  intro kv hkv
  rw [getUpdatedSensors_snd] at hkv
  obtain ⟨a, ha, rfl⟩ := List.mem_map.mp hkv
  exact updateSimTemp_range a.1 a.2 now os (jit a.1)
    (cpuVal now os e.cache) (memVal now os e.cache) hmt hdisk (hwf a ha)

/-- Witness for C1 at a concrete engine holding a simulated cpu_package
sensor, a simulated SSD sensor and a real sensor. -/
theorem c1_refresh_values_within_declared_ranges_witness :
    (updateClampRange c1WitnessEntry.1 c1WitnessEntry.2.method).1
      ≤ c1WitnessEntry.2.current ∧
    c1WitnessEntry.2.current
      ≤ (updateClampRange c1WitnessEntry.1 c1WitnessEntry.2.method).2 := by
  have h := c1_refresh_values_within_declared_ranges engineW 0 osEnv0
    (fun _ => 0) (by norm_num [osEnv0]) rfl (by decide)
  have hne : (getUpdatedSensors engineW 0 osEnv0 (fun _ => 0)).2 ≠ [] := by
    rw [getUpdatedSensors_snd]
    simp [engineW, sensorsW]
  exact h c1WitnessEntry (headD_mem_of_ne_nil _ _ hne)

/-- C5: a refresh tick never changes the set of sensor keys - the returned
map carries exactly the keys of self.sensors, self.sensors itself is
untouched, and self.sensors is exactly what the most recent
detect_all_sensors run stored. -/
theorem c5_refresh_preserves_key_set (e : Engine) (now : ℚ) (os : OsEnv)
    (jit : String → ℚ) (results : List SMap) (g : GenEnv) :
    ((getUpdatedSensors e now os jit).2.map Prod.fst
      = e.sensors.map Prod.fst) ∧
    ((getUpdatedSensors e now os jit).1.sensors = e.sensors) ∧
    ((detectAllSensorsEngine e results g).1.sensors
      = (detectAllSensorsEngine e results g).2) := by
  refine ⟨?_, rfl, rfl⟩
  rw [getUpdatedSensors_snd]
  exact map_fst_tickEntry now os jit e.cache e.sensors

/-- C10: any number of refresh calls leaves self.sensors - including every
stored current value - exactly as the last detect_all_sensors run stored it;
each tick recomputes from this fixed baseline. -/
theorem c10_refresh_never_writes_sensor_map
    (l : List (ℚ × OsEnv × (String → ℚ))) (e : Engine) :
    (refreshIter l e).sensors = e.sensors := by
  induction l generalizing e with
  | nil => rfl
  | cons p t ih =>
      rw [show refreshIter (p :: t) e
        = refreshIter t ((getUpdatedSensors e p.1 p.2.1 p.2.2).1) from rfl]
      rw [ih]
      rfl

/-- C2 (amended): detect_all_sensors returns a non-empty map - even when
every detection method raises or contributes an empty map the synthetic
fallback is invoked and its output (which then contains cpu_package) is
returned - provided the generator's own leading psutil reads succeed; when
those reads also raise (psutil unavailable), the generator returns an empty
dict and total detection failure yields an empty map (see the
counterexample). -/
theorem c2_detect_all_sensors_nonempty (results : List SMap) (g : GenEnv) :
    (g.psutilOk = true → detectAllSensors results g ≠ []) ∧
    ((∀ r ∈ results, r = []) →
      detectAllSensors results g
        = dictUpdate [] (createSimulatedSensors g)) := by
  constructor
  · intro hps
    simp only [detectAllSensors]
    split_ifs with h
    · exact dictUpdate_ne_nil _ _ (createSimulatedSensors_ne_nil g hps)
    · intro hnil
      rw [hnil] at h
      simp at h
  · intro hall
    simp only [detectAllSensors]
    rw [foldl_empty_results results [] hall]
    norm_num

/-- Witness for C2: all five detectors contribute nothing and the result is
still the synthetic set. -/
theorem c2_detect_all_sensors_nonempty_witness :
    detectAllSensors [[], [], [], [], []] genEnv0 ≠ [] ∧
    detectAllSensors [[], [], [], [], []] genEnv0
      = dictUpdate [] (createSimulatedSensors genEnv0) := by
  have h := c2_detect_all_sensors_nonempty [[], [], [], [], []] genEnv0
  exact ⟨h.1 rfl, h.2 (by simp)⟩

/-- C8: two cached-cpu reads whose ages are within the 2-second TTL of the
stored timestamp both return the stored value without invoking the OS query
and leave the cache state unchanged; a read whose age exceeds the TTL
invokes the query and (on success) stores the value with the current
timestamp and returns it. -/
theorem c8_cpu_cache_ttl (st : CacheState) (now1 now2 os1 os2 : ℚ)
    (ok1 ok2 : Bool) :
    ((now1 - st.lastCpuCheck ≤ cacheDuration →
      now2 - st.lastCpuCheck ≤ cacheDuration →
      (getCachedCpuPercent now1 os1 ok1 st).value
        = (getCachedCpuPercent now2 os2 ok2
            (getCachedCpuPercent now1 os1 ok1 st).state).value ∧
      (getCachedCpuPercent now1 os1 ok1 st).queried = false ∧
      (getCachedCpuPercent now2 os2 ok2
        (getCachedCpuPercent now1 os1 ok1 st).state).queried = false ∧
      (getCachedCpuPercent now1 os1 ok1 st).state = st)) ∧
    (cacheDuration < now1 - st.lastCpuCheck → ok1 = true →
      (getCachedCpuPercent now1 os1 ok1 st).queried = true ∧
      (getCachedCpuPercent now1 os1 ok1 st).value = os1 ∧
      (getCachedCpuPercent now1 os1 ok1 st).state.cachedCpuPercent = os1 ∧
      (getCachedCpuPercent now1 os1 ok1 st).state.lastCpuCheck = now1) := by
  constructor
  · intro h1 h2
    have hn1 : ¬ cacheDuration < now1 - st.lastCpuCheck := not_lt.mpr h1
    have hn2 : ¬ cacheDuration < now2 - st.lastCpuCheck := not_lt.mpr h2
    simp [getCachedCpuPercent, hn1, hn2]
  · intro h1 hok
    simp [getCachedCpuPercent, h1, hok]

/-- Witness for C8: two reads at times 1 and 2 against a cache stamped 0
holding 37; an expired read at time 5 queries and stores 80. -/
theorem c8_cpu_cache_ttl_witness :
    ((getCachedCpuPercent 1 60 true ⟨0, 0, 37, 45⟩).value
      = (getCachedCpuPercent 2 70 true
          (getCachedCpuPercent 1 60 true ⟨0, 0, 37, 45⟩).state).value) ∧
    (getCachedCpuPercent 5 80 true ⟨0, 0, 37, 45⟩).queried = true ∧
    (getCachedCpuPercent 5 80 true ⟨0, 0, 37, 45⟩).value = 80 ∧
    (getCachedCpuPercent 5 80 true ⟨0, 0, 37, 45⟩).state.lastCpuCheck = 5 := by
  have h1 := (c8_cpu_cache_ttl ⟨0, 0, 37, 45⟩ 1 2 60 70 true true).1
    (by norm_num [cacheDuration]) (by norm_num [cacheDuration])
  have h2 := (c8_cpu_cache_ttl ⟨0, 0, 37, 45⟩ 5 5 80 80 true true).2
    (by norm_num [cacheDuration]) rfl
  exact ⟨h1.1, h2.1, h2.2.1, h2.2.2.2⟩

/-- C3: for a fan id present in the fan map (whose max_rpm values are all
multiples of 100, as in the engine's fixed fan set), set_fan_speed returns
true, sets that fan's current_speed to the percent and its current_rpm to
round(percent / 100 * max_rpm), leaving every other fan unchanged; for an
absent id it returns false and leaves the whole engine unchanged. -/
theorem c3_set_fan_speed_spec (e : Engine) (id : String) (p : ℤ)
    (hdvd : ∀ kv ∈ e.fan_status, (100 : ℤ) ∣ kv.2.max_rpm) :
    (∀ fi, lookupFan e.fan_status id = some fi →
      (set_fan_speed e id p).2 = true ∧
      lookupFan (set_fan_speed e id p).1.fan_status id
        = some { fi with
            current_speed := p,
            current_rpm := pyRound ((p : ℚ) / 100 * (fi.max_rpm : ℚ)) } ∧
      (∀ id2, id2 ≠ id →
        lookupFan (set_fan_speed e id p).1.fan_status id2
          = lookupFan e.fan_status id2)) ∧
    (lookupFan e.fan_status id = none →
      (set_fan_speed e id p).2 = false ∧ (set_fan_speed e id p).1 = e) := by
  constructor
  · intro fi hfi
    have hsome : (lookupFan e.fan_status id).isSome = true := by
      rw [hfi]
      rfl
    unfold set_fan_speed
    rw [if_pos hsome]
    refine ⟨rfl, ?_, ?_⟩
    · dsimp only
      rw [lookupFan_set_update, hfi, Option.map_some']
      have hd : (100 : ℤ) ∣ fi.max_rpm :=
        hdvd (id, fi) (lookupFan_mem e.fan_status id fi hfi)
      rw [pyInt_div100_eq_pyRound p fi.max_rpm hd]
    · intro id2 hne
      dsimp only
      exact lookupFan_set_other e.fan_status id id2 hne p
  · intro hnone
    have hns : ¬ (lookupFan e.fan_status id).isSome = true := by
      rw [hnone]
      simp
    unfold set_fan_speed
    rw [if_neg hns]
    exact ⟨rfl, rfl⟩

/-- Witness for C3: set_fan_speed("cpu_fan", 75) on the initialized engine
yields speed 75 and rpm 2250 = round(0.75 * 3000); an unknown id fails and
changes nothing. -/
theorem c3_set_fan_speed_spec_witness :
    (set_fan_speed engine0 "cpu_fan" 75).2 = true ∧
    lookupFan (set_fan_speed engine0 "cpu_fan" 75).1.fan_status "cpu_fan"
      = some ⟨2250, 75, 3000, "Normal"⟩ ∧
    (set_fan_speed engine0 "nonexistent" 50).2 = false ∧
    (set_fan_speed engine0 "nonexistent" 50).1 = engine0 := by
  have hd : ∀ kv ∈ engine0.fan_status, (100 : ℤ) ∣ kv.2.max_rpm := by
    decide
  have h1 := (c3_set_fan_speed_spec engine0 "cpu_fan" 75 hd).1
    ⟨1200, 60, 3000, "Normal"⟩ (by simp [engine0, initialFanStatus, lookupFan])
  have h2 := (c3_set_fan_speed_spec engine0 "nonexistent" 50 hd).2
    (by simp [engine0, initialFanStatus, lookupFan])
  refine ⟨h1.1, ?_, h2.1, h2.2⟩
  rw [h1.2.1]
  norm_num [pyRound]

/-- C4 (amended): after a fan refresh tick (get_fan_status), every fan's
status equals the pure threshold function of its current_speed; set_fan_speed
however never recomputes status - it leaves every status field unchanged, so
the consistency property does not survive a set_fan_speed call (see the
counterexample). -/
theorem c4_status_consistent_after_refresh (e : Engine)
    (fenv : String → ℚ × ℚ) (e2 : Engine) (id : String) (p : ℤ) :
    (∀ kv ∈ (getFanStatus e fenv).2,
      kv.2.status = fanStatusOfSpeed kv.2.current_speed) ∧
    ((set_fan_speed e2 id p).1.fan_status.map (fun kv => kv.2.status)
      = e2.fan_status.map (fun kv => kv.2.status)) := by
  constructor
  · intro kv hkv
    have hh : (getFanStatus e fenv).2
        = updateFanStatusRealTime
            (if e.fan_status = [] then initialFanStatus else e.fan_status)
            fenv := rfl
    rw [hh] at hkv
    obtain ⟨a, ha, rfl⟩ := List.mem_map.mp hkv
    rfl
  · unfold set_fan_speed
    split_ifs
    · dsimp only
      exact map_status_update e2.fan_status id p
    · rfl

/-- Counterexample for C4 as stated: on the initialized engine,
set_fan_speed("cpu_fan", 90) stores speed 90 and rpm 2700 but leaves status
"Normal", while the threshold function demands "High". -/
theorem c4_status_stale_after_set_fan_speed_cex :
    ¬ (∀ kv ∈ (set_fan_speed engine0 "cpu_fan" 90).1.fan_status,
        kv.2.status = fanStatusOfSpeed kv.2.current_speed) := by
  intro hall
  have hl : lookupFan (set_fan_speed engine0 "cpu_fan" 90).1.fan_status
      "cpu_fan" = some ⟨2700, 90, 3000, "Normal"⟩ := by
    norm_num [set_fan_speed, engine0, initialFanStatus, lookupFan, pyInt]
  have h := hall ("cpu_fan", ⟨2700, 90, 3000, "Normal"⟩)
    (lookupFan_mem _ _ _ hl)
  simp [fanStatusOfSpeed] at h

/-- One refresh tick keeps every rpm in [0, max_rpm] whenever each fan's
max_rpm is at least the 200 rpm lower clamp. -/
theorem rpm_inv_refresh (m : FMap) (fenv : String → ℚ × ℚ)
    (h : ∀ kv ∈ m, (200 : ℤ) ≤ kv.2.max_rpm) :
    rpmInvariant (updateFanStatusRealTime m fenv) := by
  intro kv hkv
  obtain ⟨a, ha, rfl⟩ := List.mem_map.mp hkv
  have hma := h a ha
  constructor
  · exact le_trans (by norm_num) (le_max_left (200 : ℤ) _)
  · exact max_le hma (min_le_left _ _)

/-- set_fan_speed keeps every rpm in [0, max_rpm] when the percent lies in
[0, 100]. -/
theorem rpm_inv_set (e : Engine) (id : String) (p : ℤ)
    (hp0 : 0 ≤ p) (hp1 : p ≤ 100) (hinv : rpmInvariant e.fan_status) :
    rpmInvariant (set_fan_speed e id p).1.fan_status := by
  unfold set_fan_speed
  split_ifs
  · dsimp only
    intro kv hkv
    obtain ⟨a, ha, hfa⟩ := List.mem_map.mp hkv
    by_cases h : a.1 = id
    · rw [if_pos h] at hfa
      subst hfa
      dsimp only
      have hm := hinv a ha
      have hm0 : (0 : ℤ) ≤ a.2.max_rpm := le_trans hm.1 hm.2
      have hq0 : (0 : ℚ) ≤ (p : ℚ) / 100 * (a.2.max_rpm : ℚ) := by
        apply mul_nonneg
        · apply div_nonneg
          · exact_mod_cast hp0
          · norm_num
        · exact_mod_cast hm0
      have hq1 : (p : ℚ) / 100 * (a.2.max_rpm : ℚ) ≤ (a.2.max_rpm : ℚ) := by
        have hp1q : (p : ℚ) / 100 ≤ 1 := by
          rw [div_le_one]
          · exact_mod_cast hp1
          · norm_num
        calc (p : ℚ) / 100 * (a.2.max_rpm : ℚ)
            ≤ 1 * (a.2.max_rpm : ℚ) :=
              mul_le_mul_of_nonneg_right hp1q (by exact_mod_cast hm0)
          _ = (a.2.max_rpm : ℚ) := one_mul _
      constructor
      · unfold pyInt
        rw [if_pos hq0]
        exact Int.le_floor.mpr (by exact_mod_cast hq0)
      · unfold pyInt
        rw [if_pos hq0]
        have hfl := Int.floor_le ((p : ℚ) / 100 * (a.2.max_rpm : ℚ))
        have h2 : ((⌊(p : ℚ) / 100 * (a.2.max_rpm : ℚ)⌋ : ℤ) : ℚ)
            ≤ (a.2.max_rpm : ℚ) := le_trans hfl hq1
        exact_mod_cast h2
    · rw [if_neg h] at hfa
      subst hfa
      exact hinv a ha
  · exact hinv

/-- C7 (amended): the refresh tick preserves the rpm invariant for any fan
map whose max_rpm values are at least 200 (true of the engine's fixed fan
set), and set_fan_speed preserves it for percent arguments in [0, 100]; the
source applies no clamp in set_fan_speed, so out-of-range percents violate
the invariant (see the counterexample). -/
theorem c7_rpm_invariant_amended (e : Engine) (fenv : String → ℚ × ℚ)
    (e2 : Engine) (id : String) (p : ℤ) :
    ((∀ kv ∈ e.fan_status, (200 : ℤ) ≤ kv.2.max_rpm) →
      rpmInvariant (getFanStatus e fenv).2) ∧
    (0 ≤ p → p ≤ 100 → rpmInvariant e2.fan_status →
      rpmInvariant (set_fan_speed e2 id p).1.fan_status) := by
  constructor
  · intro h
    have hh : (getFanStatus e fenv).2
        = updateFanStatusRealTime
            (if e.fan_status = [] then initialFanStatus else e.fan_status)
            fenv := rfl
    rw [hh]
    apply rpm_inv_refresh
    by_cases he : e.fan_status = []
    · rw [if_pos he]
      decide
    · rw [if_neg he]
      exact h
  · exact fun hp0 hp1 hinv => rpm_inv_set e2 id p hp0 hp1 hinv

/-- Witness for C7 (amended) on the initialized engine. -/
theorem c7_rpm_invariant_amended_witness :
    rpmInvariant (getFanStatus engine0 fenv0).2 ∧
    rpmInvariant (set_fan_speed engine0 "cpu_fan" 75).1.fan_status := by
  have h := c7_rpm_invariant_amended engine0 fenv0 engine0 "cpu_fan" 75
  exact ⟨h.1 (by decide), h.2 (by norm_num) (by norm_num) (by decide)⟩

/-- Counterexample for C7 as stated: the rpm invariant holds on the
initialized engine but set_fan_speed("cpu_fan", 150) stores 4500 rpm against
a 3000 rpm maximum. -/
theorem c7_rpm_invariant_violated_by_set_fan_speed_cex :
    rpmInvariant engine0.fan_status ∧
    ¬ rpmInvariant (set_fan_speed engine0 "cpu_fan" 150).1.fan_status := by
  constructor
  · decide
  · intro hinv
    have hl : lookupFan (set_fan_speed engine0 "cpu_fan" 150).1.fan_status
        "cpu_fan" = some ⟨4500, 150, 3000, "Normal"⟩ := by
      norm_num [set_fan_speed, engine0, initialFanStatus, lookupFan, pyInt]
    have h := hinv ("cpu_fan", ⟨4500, 150, 3000, "Normal"⟩)
      (lookupFan_mem _ _ _ hl)
    norm_num at h

set_option maxHeartbeats 1600000 in
/-- C6: after a refresh tick, whenever the cached cpu / memory percentages
lie in [0, 100] and the three GPU jitter draws lie in their documented
uniform ranges, the simulated GPU hot spot reads at least the GPU core and
the GPU fan at most the GPU core. -/
theorem c6_gpu_ordering_after_refresh (e : Engine) (now : ℚ) (os : OsEnv)
    (jit : String → ℚ)
    (hc1 : 0 ≤ os.cpuPercent) (hc2 : os.cpuPercent ≤ 100)
    (hm1 : 0 ≤ os.memoryPercent) (hm2 : os.memoryPercent ≤ 100)
    (hcc1 : 0 ≤ e.cache.cachedCpuPercent)
    (hcc2 : e.cache.cachedCpuPercent ≤ 100)
    (hcm1 : 0 ≤ e.cache.cachedMemoryPercent)
    (hcm2 : e.cache.cachedMemoryPercent ≤ 100)
    (hjc1 : -0.8 ≤ jit "gpu_core") (hjc2 : jit "gpu_core" ≤ 1.5)
    (hjh1 : -0.8 ≤ jit "gpu_hotspot") (hjh2 : jit "gpu_hotspot" ≤ 3)
    (hjf1 : -1.5 ≤ jit "gpu_fan") (hjf2 : jit "gpu_fan" ≤ 2)
    (hsim : ∀ kv ∈ e.sensors,
      (kv.1 = "gpu_core" ∨ kv.1 = "gpu_hotspot" ∨ kv.1 = "gpu_fan") →
      strContains kv.2.method "Simulated" = true) :
    ∀ sc sh sf,
      ("gpu_core", sc) ∈ (getUpdatedSensors e now os jit).2 →
      ("gpu_hotspot", sh) ∈ (getUpdatedSensors e now os jit).2 →
      ("gpu_fan", sf) ∈ (getUpdatedSensors e now os jit).2 →
      sc.current ≤ sh.current ∧ sf.current ≤ sc.current := by
  intro sc sh sf hc hh hf
  rw [getUpdatedSensors_snd] at hc hh hf
  obtain ⟨a, ha, hae⟩ := List.mem_map.mp hc
  obtain ⟨b, hb, hbe⟩ := List.mem_map.mp hh
  obtain ⟨c, hcmem, hce⟩ := List.mem_map.mp hf
  simp only [tickEntry, Prod.mk.injEq] at hae hbe hce
  obtain ⟨ha1, ha2⟩ := hae
  obtain ⟨hb1, hb2⟩ := hbe
  obtain ⟨hc1', hc2'⟩ := hce
  subst ha2
  subst hb2
  subst hc2'
  have hsa : strContains a.2.method "Simulated" = true :=
    hsim a ha (Or.inl ha1)
  have hsb : strContains b.2.method "Simulated" = true :=
    hsim b hb (Or.inr (Or.inl hb1))
  have hsc' : strContains c.2.method "Simulated" = true :=
    hsim c hcmem (Or.inr (Or.inr hc1'))
  dsimp only
  rw [ha1, hb1, hc1']
  rw [updateSimTemp_gpu_core a.2 now os (jit "gpu_core")
      (cpuVal now os e.cache) (memVal now os e.cache) hsa]
  rw [updateSimTemp_gpu_hotspot b.2 now os (jit "gpu_hotspot")
      (cpuVal now os e.cache) (memVal now os e.cache) hsb]
  rw [updateSimTemp_gpu_fan c.2 now os (jit "gpu_fan")
      (cpuVal now os e.cache) (memVal now os e.cache) hsc']
  obtain ⟨hv0, hv1⟩ := cpuVal_bounds now os e.cache hc1 hc2 hcc1 hcc2
  obtain ⟨hw0, hw1⟩ := memVal_bounds now os e.cache hm1 hm2 hcm1 hcm2
  set v := cpuVal now os e.cache with hvdef
  set w := memVal now os e.cache with hwdef
  set act := (w * 0.3 + v * 0.4) / 100 with hact
  have hact0 : 0 ≤ act := by
    rw [hact]
    have h1 := mul_nonneg hw0 (by norm_num : (0 : ℚ) ≤ 0.3)
    have h2 := mul_nonneg hv0 (by norm_num : (0 : ℚ) ≤ 0.4)
    exact div_nonneg (by linarith) (by norm_num)
  have hact1 : act ≤ 0.7 := by
    rw [hact, div_le_iff (by norm_num : (0 : ℚ) < 100)]
    nlinarith [hw1, hv1]
  have hXc0 : (25 : ℚ) ≤ 30 + act * 25 + jit "gpu_core" := by nlinarith
  have hXc1 : 30 + act * 25 + jit "gpu_core" ≤ 80 := by nlinarith
  have hXh0 : (30 : ℚ) ≤ 35 + act * 30 + jit "gpu_hotspot" := by nlinarith
  have hXh1 : 35 + act * 30 + jit "gpu_hotspot" ≤ 85 := by nlinarith
  have hXf0 : (20 : ℚ) ≤ 25 + act * 10 + jit "gpu_fan" := by nlinarith
  have hXf1 : 25 + act * 10 + jit "gpu_fan" ≤ 60 := by nlinarith
  rw [min_eq_right hXc1, max_eq_right hXc0, min_eq_right hXh1,
    max_eq_right hXh0, min_eq_right hXf1, max_eq_right hXf0]
  constructor
  · nlinarith
  · nlinarith

/-- Witness for C6 on a concrete engine holding the three simulated GPU
sensors, with cached metrics 35 and 45 and zero jitter. -/
theorem c6_gpu_ordering_after_refresh_witness :
    (tickEntry 0 osEnv0 (fun _ => 0) engineG.cache
      ("gpu_core", ⟨"G Core", "GPU", 40,
        "Simulated (Activity-based)"⟩)).2.current
      ≤ (tickEntry 0 osEnv0 (fun _ => 0) engineG.cache
          ("gpu_hotspot", ⟨"G Hot Spot", "GPU", 46,
            "Simulated (GPU Hot Spot)"⟩)).2.current ∧
    (tickEntry 0 osEnv0 (fun _ => 0) engineG.cache
      ("gpu_fan", ⟨"G Fan", "GPU", 30, "Simulated (GPU Fan)"⟩)).2.current
      ≤ (tickEntry 0 osEnv0 (fun _ => 0) engineG.cache
          ("gpu_core", ⟨"G Core", "GPU", 40,
            "Simulated (Activity-based)"⟩)).2.current := by
  have h := c6_gpu_ordering_after_refresh engineG 0 osEnv0 (fun _ => 0)
    (by norm_num [osEnv0]) (by norm_num [osEnv0])
    (by norm_num [osEnv0]) (by norm_num [osEnv0])
    (by norm_num [engineG]) (by norm_num [engineG])
    (by norm_num [engineG]) (by norm_num [engineG])
    (by norm_num) (by norm_num) (by norm_num) (by norm_num)
    (by norm_num) (by norm_num) (by decide)
  apply h
  · rw [getUpdatedSensors_snd]
    exact List.mem_map.mpr ⟨("gpu_core", ⟨"G Core", "GPU", 40,
      "Simulated (Activity-based)"⟩), by simp [engineG], rfl⟩
  · rw [getUpdatedSensors_snd]
    exact List.mem_map.mpr ⟨("gpu_hotspot", ⟨"G Hot Spot", "GPU", 46,
      "Simulated (GPU Hot Spot)"⟩), by simp [engineG], rfl⟩
  · rw [getUpdatedSensors_snd]
    exact List.mem_map.mpr ⟨("gpu_fan", ⟨"G Fan", "GPU", 30,
      "Simulated (GPU Fan)"⟩), by simp [engineG], rfl⟩

/-- C9 (amended): get_updated_sensors allocates and returns a fresh map
object - distinct from the engine's own sensor map - so a caller mutating
the returned object leaves the engine's stored sensors untouched;
get_fan_status however returns self.fan_status itself (src 1339), the very
object the engine keeps using, not a copy (see the counterexample). -/
theorem c9_copy_semantics_amended (e : ObjEngine) (now : ℚ) (os : OsEnv)
    (jit : String → ℚ) (fenv : String → ℚ × ℚ) (junk : SMap)
    (halloc : e.sensorsRef < e.nextS) :
    ((getUpdatedSensorsObj e now os jit).2 ≠ e.sensorsRef ∧
     (getUpdatedSensorsObj e now os jit).1.sensorsRef = e.sensorsRef ∧
     (writeS (getUpdatedSensorsObj e now os jit).1
        (getUpdatedSensorsObj e now os jit).2 junk).heapS e.sensorsRef
       = e.heapS e.sensorsRef) ∧
    ((getFanStatusObj e fenv).2 = (getFanStatusObj e fenv).1.fanRef) := by
  have hne2 : e.sensorsRef ≠ e.nextS := Nat.ne_of_lt halloc
  refine ⟨⟨fun h => hne2 h.symm, rfl, ?_⟩, rfl⟩
  simp [writeS, getUpdatedSensorsObj, hne2]

/-- Witness for C9 (amended) on the concrete initialized object engine. -/
theorem c9_copy_semantics_amended_witness :
    ((getUpdatedSensorsObj objEngine0 0 osEnv0 (fun _ => 0)).2
      ≠ objEngine0.sensorsRef) ∧
    ((getFanStatusObj objEngine0 fenv0).2
      = (getFanStatusObj objEngine0 fenv0).1.fanRef) := by
  have h := c9_copy_semantics_amended objEngine0 0 osEnv0 (fun _ => 0)
    fenv0 [] (by norm_num [objEngine0])
  exact ⟨h.1.1, h.2⟩

/-- Counterexample for C9 as stated: get_fan_status hands back the address
of the engine's own fan map, so a caller clearing the returned object
changes the fan state the engine observes. -/
theorem c9_get_fan_status_alias_cex :
    (getFanStatusObj objEngine0 fenv0).2
      = (getFanStatusObj objEngine0 fenv0).1.fanRef ∧
    (writeF (getFanStatusObj objEngine0 fenv0).1
        (getFanStatusObj objEngine0 fenv0).2 []).heapF
        ((writeF (getFanStatusObj objEngine0 fenv0).1
          (getFanStatusObj objEngine0 fenv0).2 []).fanRef)
      ≠ (getFanStatusObj objEngine0 fenv0).1.heapF
          ((getFanStatusObj objEngine0 fenv0).1.fanRef) := by
  constructor
  · rfl
  · intro habs
    have h2 : (getFanStatusObj objEngine0 fenv0).1.heapF
        ((getFanStatusObj objEngine0 fenv0).1.fanRef) = ([] : FMap) := by
      rw [← habs]
      rfl
    have h3 : (getFanStatusObj objEngine0 fenv0).1.heapF
        ((getFanStatusObj objEngine0 fenv0).1.fanRef)
        = updateFanStatusRealTime initialFanStatus fenv0 := by
      simp [getFanStatusObj, objEngine0, initialFanStatus]
    rw [h3] at h2
    simp [updateFanStatusRealTime, initialFanStatus] at h2

/-- Witness for C4 (amended) on the initialized engine: the first refreshed
fan satisfies the threshold consistency, and set_fan_speed("cpu_fan", 75)
leaves every status field unchanged. -/
theorem c4_status_consistent_after_refresh_witness :
    ((getFanStatus engine0 fenv0).2.headD ("", ⟨0, 0, 0, ""⟩)).2.status
      = fanStatusOfSpeed
          ((getFanStatus engine0 fenv0).2.headD
            ("", ⟨0, 0, 0, ""⟩)).2.current_speed ∧
    (set_fan_speed engine0 "cpu_fan" 75).1.fan_status.map
        (fun kv => kv.2.status)
      = engine0.fan_status.map (fun kv => kv.2.status) := by
  have h := c4_status_consistent_after_refresh engine0 fenv0 engine0
    "cpu_fan" 75
  constructor
  · apply h.1
    apply headD_mem_of_ne_nil
    simp [getFanStatus, updateFanStatusRealTime, engine0, initialFanStatus]
  · exact h.2

/-- Dispatch value at the simulated storage_ssd key when the disk-IO query
raises: the inner except of the storage branch returns last value + jitter
clamped to [25, 55]. -/
theorem updateSimTemp_storage_ssd_except (info : Sensor) (now : ℚ)
    (os : OsEnv) (j v m : ℚ)
    (hs : strContains info.method "Simulated" = true)
    (hd : os.diskOk = false) :
    updateSimTemp "storage_ssd" info now os j v m
      = max 25 (min 55 (info.current + j)) := by
  have hco : ¬ (strContains info.method "Simulated" = false) := by simp [hs]
  unfold updateSimTemp
  rw [if_neg hco]
  rw [if_neg (show ¬ (("storage_ssd" : String) = "cpu_package") by decide)]
  rw [if_neg (show ¬ (strContains "storage_ssd" "cpu_core_" = true) by decide)]
  rw [if_neg (show ¬ (strContains "storage_ssd" "cpu_thread_" = true) by decide)]
  rw [if_neg (show ¬ (strContains "storage_ssd" "ram_module_" = true) by decide)]
  rw [if_neg (show ¬ (("storage_ssd" : String) = "ram_controller") by decide)]
  rw [if_neg (show ¬ (strContains "storage_ssd" "ram_dimm_" = true) by decide)]
  rw [if_neg (show ¬ (("storage_ssd" : String) = "gpu_core") by decide)]
  rw [if_neg (show ¬ (("storage_ssd" : String) = "gpu_memory") by decide)]
  rw [if_neg (show ¬ (("storage_ssd" : String) = "gpu_vrm") by decide)]
  rw [if_neg (show ¬ (("storage_ssd" : String) = "gpu_hotspot") by decide)]
  rw [if_neg (show ¬ (("storage_ssd" : String) = "gpu_fan") by decide)]
  rw [if_neg (show ¬ (("storage_ssd" : String) = "motherboard") by decide)]
  rw [if_neg (show ¬ (("storage_ssd" : String) = "chipset") by decide)]
  rw [if_neg (show ¬ (("storage_ssd" : String) = "southbridge") by decide)]
  rw [if_neg (show ¬ (strContains "storage_ssd" "pcie_slot_" = true) by decide)]
  rw [if_neg (show ¬ (("storage_ssd" : String) = "vrm") by decide)]
  rw [if_pos (show strContains "storage_ssd" "storage_" = true by decide)]
  rw [if_pos hd]

/-- The declared per-kind range of the simulated SSD sensor. -/
theorem updateClampRange_storage_ssd :
    updateClampRange "storage_ssd" "Simulated (SSD IO-based)" = (20, 45) := by
  unfold updateClampRange
  rw [if_neg (show ¬ (strContains "Simulated (SSD IO-based)" "Simulated"
    = false) by decide)]
  rw [if_neg (show ¬ (("storage_ssd" : String) = "cpu_package") by decide)]
  rw [if_neg (show ¬ (strContains "storage_ssd" "cpu_core_" = true) by decide)]
  rw [if_neg (show ¬ (strContains "storage_ssd" "cpu_thread_" = true) by decide)]
  rw [if_neg (show ¬ (strContains "storage_ssd" "ram_module_" = true) by decide)]
  rw [if_neg (show ¬ (("storage_ssd" : String) = "ram_controller") by decide)]
  rw [if_neg (show ¬ (strContains "storage_ssd" "ram_dimm_" = true) by decide)]
  rw [if_neg (show ¬ (("storage_ssd" : String) = "gpu_core") by decide)]
  rw [if_neg (show ¬ (("storage_ssd" : String) = "gpu_memory") by decide)]
  rw [if_neg (show ¬ (("storage_ssd" : String) = "gpu_vrm") by decide)]
  rw [if_neg (show ¬ (("storage_ssd" : String) = "gpu_hotspot") by decide)]
  rw [if_neg (show ¬ (("storage_ssd" : String) = "gpu_fan") by decide)]
  rw [if_neg (show ¬ (("storage_ssd" : String) = "motherboard") by decide)]
  rw [if_neg (show ¬ (("storage_ssd" : String) = "chipset") by decide)]
  rw [if_neg (show ¬ (("storage_ssd" : String) = "southbridge") by decide)]
  rw [if_neg (show ¬ (strContains "storage_ssd" "pcie_slot_" = true) by decide)]
  rw [if_neg (show ¬ (("storage_ssd" : String) = "vrm") by decide)]
  rw [if_pos (show strContains "storage_ssd" "storage_" = true by decide)]
  rw [if_pos (show strContains "storage_ssd" "ssd" = true by decide)]

/-- Counterexample for C1 as stated: with the simulated SSD stored at the
45-degree ceiling of its creation range, a tick in which
psutil.disk_io_counters raises and the fallback jitter draws +1 emits
current 46, outside the SSD's declared [20, 45] range. -/
theorem c1_storage_except_exceeds_range_cex :
    ("storage_ssd",
      (tickEntry 0 osDiskFail (fun _ => 1) engineSsd.cache
        ("storage_ssd", ⟨"Primary SSD", "Storage", 45,
          "Simulated (SSD IO-based)"⟩)).2)
      ∈ (getUpdatedSensors engineSsd 0 osDiskFail (fun _ => 1)).2 ∧
    ¬ ((tickEntry 0 osDiskFail (fun _ => 1) engineSsd.cache
          ("storage_ssd", ⟨"Primary SSD", "Storage", 45,
            "Simulated (SSD IO-based)"⟩)).2.current
        ≤ (updateClampRange "storage_ssd" "Simulated (SSD IO-based)").2) := by
  constructor
  · rw [getUpdatedSensors_snd]
    exact List.mem_map.mpr ⟨("storage_ssd", ⟨"Primary SSD", "Storage", 45,
      "Simulated (SSD IO-based)"⟩), by simp [engineSsd], rfl⟩
  · rw [updateClampRange_storage_ssd]
    simp only [tickEntry]
    have hrw := updateSimTemp_storage_ssd_except
      ⟨"Primary SSD", "Storage", 45, "Simulated (SSD IO-based)"⟩ 0 osDiskFail 1
      (cpuVal 0 osDiskFail engineSsd.cache)
      (memVal 0 osDiskFail engineSsd.cache) (by decide) rfl
    rw [hrw]
    norm_num

/-- Counterexample for C2 as stated: when every detector contributes nothing
and the generator's own leading psutil reads raise (psutil unavailable),
detect_all_sensors returns an empty map. -/
theorem c2_total_failure_empty_cex :
    detectAllSensors [[], [], [], [], []]
      { genEnv0 with psutilOk := false } = [] := rfl
